import Mathlib

/-!
# ScreenMind browser extension: the capture / analyse / notify pipeline

A shallow embedding of `screenmind-extension/background.js`, followed by the settings
handlers of `options.js` and `popup.js`, the result rendering of `popup.js` and the overlay
of `content.js`, each as functions on an explicit page and store state, and by the history
page and the relative-time functions of the mini program.

* Asynchronous functions are written once, as interaction trees (`Prog`): every call
  into the browser platform is an operation node whose continuation receives the
  platform's answer.  `throw` and `try / catch` are explicit.
* `Prog.run` executes one call to completion against a `World` (the two stores and a
  log of every platform effect) and an `Env` (the answers of the platform parts the
  program does not control: tabs, capture, network, clock, message delivery).
* `Orch` interleaves several suspended calls, one step per resumed operation, the way
  the service worker's event loop does.

Modelling conventions:
* `chrome.storage.*` and `chrome.notifications.create` always succeed;
  `chrome.tabs.query` always answers (possibly with no tab).
* `fetch(dataUrl)` followed by `.blob()` is the local decoding of the data URL and is
  total; `captureVisibleTab`, the network `fetch` and `Response.json()` may fail.
* An `Error` is represented by its `message`.
-/

namespace ScreenMind

/-! ## JSON values as seen by JavaScript -/

/-- A parsed JSON value.  A number is the decimal `mantissa * 10 ^ exponent`. -/
inductive Json where
  | null
  | bool (b : Bool)
  | num (mantissa : Int) (exponent : Int)
  | str (s : String)
  | arr (items : List Json)
  | obj (fields : List (String × Json))

namespace Json

/-- JavaScript truthiness of a parsed JSON value. -/
def truthy : Json → Bool
  | null => false
  | bool b => b
  | num m _ => m != 0
  | str s => s != ""
  | arr _ => true
  | obj _ => true

/-- Value bound to `key` in a parsed object; on duplicate keys the last one wins. -/
def lookupLast : List (String × Json) → String → Option Json
  | [], _ => none
  | (k, v) :: rest, key =>
    match lookupLast rest key with
    | some w => some w
    | none => if k = key then some v else none

/-- The message of the `TypeError` raised by reading a property of `null`. -/
def nullReadMessage (key : String) : String :=
  "Cannot read properties of null (reading '" ++ key ++ "')"

/-- Property read `v.key`: `none` is `undefined`; reading a property of `null` throws. -/
def prop : Json → String → Except String (Option Json)
  | null, key => .error (nullReadMessage key)
  | obj fields, key => .ok (lookupLast fields key)
  | _, _ => .ok none

/-- Optional-free field read used on stored results: `none` when the field is absent. -/
def field? (v : Json) (key : String) : Option Json :=
  match v with
  | obj fields => lookupLast fields key
  | _ => none

end Json

/-! ## Data model -/

/-- The keys of `chrome.storage.sync`; `none` is an absent key. -/
structure SyncStore where
  serverUrl : Option String := none
  autoAnalyze : Option Bool := none
  showNotifications : Option Bool := none
  saveHistory : Option Bool := none
  analysisTimeout : Option Int := none
  maxHistoryItems : Option Int := none

/-- The settings object the background script works with (the keys of `DEFAULT_SETTINGS`). -/
structure Settings where
  serverUrl : String
  autoAnalyze : Bool
  showNotifications : Bool

/-- The constant `DEFAULT_SETTINGS` of background.js. -/
def DEFAULT_SETTINGS : Settings :=
  { serverUrl := "http://localhost:8000", autoAnalyze := true, showNotifications := true }

/-- What `chrome.storage.sync.get(defaults)` answers: each key of `defaults`, with the stored
value when the key is present and the default otherwise. -/
def SyncStore.get (s : SyncStore) (defaults : Settings) : Settings :=
  { serverUrl := s.serverUrl.getD defaults.serverUrl
    autoAnalyze := s.autoAnalyze.getD defaults.autoAnalyze
    showNotifications := s.showNotifications.getD defaults.showNotifications }

/-- What `chrome.storage.sync.set(settings)` does with a background settings object. -/
def SyncStore.set (s : SyncStore) (v : Settings) : SyncStore :=
  { s with serverUrl := some v.serverUrl
           autoAnalyze := some v.autoAnalyze
           showNotifications := some v.showNotifications }

/-- The keys of `chrome.storage.local` (the Result Cache); `none` is an absent key.
The same shape describes the object handed to `chrome.storage.local.set`. -/
structure Cache where
  lastScreenshot : Option String := none
  lastAnalysis : Option Json := none
  lastAnalysisTime : Option Nat := none
  lastError : Option String := none
  lastErrorTime : Option Nat := none

/-- Effect of `chrome.storage.local.set(items)`: the keys of `items` are overwritten, every
other key is kept. -/
def Cache.set (c items : Cache) : Cache :=
  { lastScreenshot := items.lastScreenshot <|> c.lastScreenshot
    lastAnalysis := items.lastAnalysis <|> c.lastAnalysis
    lastAnalysisTime := items.lastAnalysisTime <|> c.lastAnalysisTime
    lastError := items.lastError <|> c.lastError
    lastErrorTime := items.lastErrorTime <|> c.lastErrorTime }

/-- Answer of `chrome.storage.local.get(['lastScreenshot', 'lastAnalysis', 'lastError'])`. -/
structure Snapshot where
  lastScreenshot : Option String
  lastAnalysis : Option Json
  lastError : Option String

/-- A browser tab, as far as the script reads it. -/
structure Tab where
  id : Nat
  windowId : Nat

/-- Argument of `chrome.notifications.create`. -/
structure Notification where
  type : String
  iconUrl : String
  title : String
  message : String
deriving DecidableEq

/-- The notification shape used everywhere in background.js. -/
def basic (title message : String) : Notification :=
  { type := "basic", iconUrl := "icons/icon48.png", title := title, message := message }

/-- The blob obtained from a data URL by `fetch(dataUrl)` and `.blob()`. -/
structure Blob where
  ofDataUrl : String
deriving DecidableEq

/-- The `FormData` of the upload: one file field. -/
structure FormData where
  name : String
  blob : Blob
  filename : String
deriving DecidableEq

/-- An HTTP response: its status and what `json()` gives (a parse failure is an error). -/
structure HttpResponse where
  status : Nat
  body : Except String Json

/-- The `ok` flag of a response: the status is in the range 200 to 299. -/
def HttpResponse.ok (r : HttpResponse) : Bool :=
  decide (200 ≤ r.status) && decide (r.status ≤ 299)

/-- A message pushed to a content script. -/
structure Message where
  type : String
  data : Json

/-- Response of the `CAPTURE_SCREEN` request. -/
structure Reply where
  success : Bool
  error : Option String
deriving DecidableEq

/-! ## Platform operations and programs -/

/-- The platform calls made by background.js. -/
inductive Op where
  | storageSyncGet (defaults : Settings)
  | storageSyncSet (items : Settings)
  | storageLocalSet (items : Cache)
  | storageLocalGet
  | notificationsCreate (n : Notification)
  | tabsQuery
  | captureVisibleTab (windowId : Nat)
  | fetchPost (url : String) (form : FormData)
  | dateNow
  | tabsSendMessage (tabId : Nat) (msg : Message)
  | toStringOf (v : Json)

/-- The answer type of each platform call. -/
@[reducible]
def Resp : Op → Type
  | .storageSyncGet _ => Settings
  | .storageSyncSet _ => Unit
  | .storageLocalSet _ => Unit
  | .storageLocalGet => Cache
  | .notificationsCreate _ => Unit
  | .tabsQuery => List Tab
  | .captureVisibleTab _ => Except String String
  | .fetchPost _ _ => Except String HttpResponse
  | .dateNow => Nat
  | .tabsSendMessage _ _ => Bool
  | .toStringOf _ => String

/-- Whether the caller is suspended (`await`) until the call is answered. -/
def Op.suspends : Op → Bool
  | .storageSyncGet _ => true
  | .storageSyncSet _ => true
  | .storageLocalSet _ => true
  | .storageLocalGet => true
  | .notificationsCreate _ => false
  | .tabsQuery => true
  | .captureVisibleTab _ => true
  | .fetchPost _ _ => true
  | .dateNow => false
  | .tabsSendMessage _ _ => false
  | .toStringOf _ => false

/-- A JavaScript computation: it returns, throws an `Error` with a message, or calls the
platform and continues with the answer. -/
inductive Prog (α : Type) where
  | ret (a : α)
  | throw (message : String)
  | op (o : Op) (k : Resp o → Prog α)

namespace Prog

/-- Sequencing. -/
def bind {α β : Type} : Prog α → (α → Prog β) → Prog β
  | ret a, f => f a
  | throw e, _ => throw e
  | op o k, f => op o (fun r => (k r).bind f)

/-- The statement `try body catch (error) handler`. -/
def tryCatch {α : Type} : Prog α → (String → Prog α) → Prog α
  | ret a, _ => ret a
  | throw e, _handler => _handler e
  | op o k, handler => op o (fun r => (k r).tryCatch handler)

/-- A single platform call. -/
def call (o : Op) : Prog (Resp o) := op o ret

/-- Awaiting a promise that is already settled: a rejection becomes a `throw`. -/
def ofExcept {α : Type} : Except String α → Prog α
  | .ok a => ret a
  | .error e => throw e

end Prog

instance : Monad Prog where
  pure := Prog.ret
  bind := Prog.bind

/-! ## The platform calls, as the script writes them -/

/-- The call `await chrome.storage.sync.get(defaults)`. -/
def storageSyncGet (defaults : Settings) : Prog Settings := Prog.call (.storageSyncGet defaults)

/-- The call `await chrome.storage.sync.set(items)`. -/
def storageSyncSet (items : Settings) : Prog Unit := Prog.call (.storageSyncSet items)

/-- The call `await chrome.storage.local.set(items)`. -/
def storageLocalSet (items : Cache) : Prog Unit := Prog.call (.storageLocalSet items)

/-- The call `chrome.storage.local.get(keys)`, before the keys are selected. -/
def storageLocalGet : Prog Cache := Prog.call .storageLocalGet

/-- The call `chrome.notifications.create(n)`. -/
def notificationsCreate (n : Notification) : Prog Unit := Prog.call (.notificationsCreate n)

/-- The call `await chrome.tabs.query(active, currentWindow)`. -/
def tabsQuery : Prog (List Tab) := Prog.call .tabsQuery

/-- The call `await chrome.tabs.captureVisibleTab(windowId, png)`. -/
def captureVisibleTab (windowId : Nat) : Prog String :=
  Prog.op (.captureVisibleTab windowId) Prog.ofExcept

/-- The call `await fetch(url, POST form)`. -/
def fetchPost (url : String) (form : FormData) : Prog HttpResponse :=
  Prog.op (.fetchPost url form) Prog.ofExcept

/-- The call `await response.json()`. -/
def HttpResponse.json (r : HttpResponse) : Prog Json := Prog.ofExcept r.body

/-- The call `Date.now()`. -/
def dateNow : Prog Nat := Prog.call .dateNow

/-- The call `chrome.tabs.sendMessage(tabId, msg).catch(() => nothing)`: not awaited, and a
rejection is swallowed, so the caller continues the same way whatever the answer. -/
def tabsSendMessage (tabId : Nat) (msg : Message) : Prog Unit :=
  Prog.op (.tabsSendMessage tabId msg) (fun _ => Prog.ret ())

/-- The message of `new Error(v)` for a JSON value `v`: a string is its own text, any other
value is converted by the platform. -/
def errorMessageOf : Json → Prog String
  | .str s => Prog.ret s
  | v => Prog.call (.toStringOf v)

/-- The local conversion `fetch(dataUrl)` then `.blob()`. -/
def dataUrlToBlob (dataUrl : String) : Blob := { ofDataUrl := dataUrl }

/-! ## background.js -/

/-- The handler of `chrome.runtime.onInstalled` (lines 12-25). -/
def onInstalled : Prog Unit := do
  storageSyncSet DEFAULT_SETTINGS
  notificationsCreate (basic "ScreenMind 扩展已安装"
    "按 Cmd+Shift+S (Mac) 或 Ctrl+Shift+S 开始截屏分析！")

/-- The function `analyzeScreenshot(dataUrl, settings)` (lines 98-179). -/
def analyzeScreenshot (dataUrl : String) (settings : Settings) : Prog Unit :=
  Prog.tryCatch
    (do
      if settings.showNotifications then
        notificationsCreate (basic "ScreenMind" "正在AI分析中...")
      let blob := dataUrlToBlob dataUrl
      let formData : FormData := { name := "image", blob := blob, filename := "screenshot.png" }
      let apiResponse ← fetchPost (settings.serverUrl ++ "/api/v1/analyze") formData
      if !apiResponse.ok then
        let errorData ← apiResponse.json
        let detail ← Prog.ofExcept (errorData.prop "detail")
        match detail with
        | some d =>
          if d.truthy then
            let message ← errorMessageOf d
            Prog.throw message
          else
            Prog.throw ("API错误: " ++ toString apiResponse.status)
        | none => Prog.throw ("API错误: " ++ toString apiResponse.status)
      else
        let result ← apiResponse.json
        let now ← dateNow
        storageLocalSet
          { lastScreenshot := some dataUrl, lastAnalysis := some result, lastAnalysisTime := some now }
        if settings.showNotifications then
          notificationsCreate (basic "ScreenMind - 分析完成" "点击扩展图标查看详细结果！")
        let tabs ← tabsQuery
        match tabs.head? with
        | some tab => tabsSendMessage tab.id { type := "ANALYSIS_COMPLETE", data := result }
        | none => pure ())
    (fun error => do
      notificationsCreate (basic "ScreenMind - 分析失败" ("分析失败: " ++ error))
      let now ← dateNow
      storageLocalSet { lastError := some error, lastErrorTime := some now })

/-- The function `captureAndAnalyze()` (lines 37-95). -/
def captureAndAnalyze : Prog Unit :=
  Prog.tryCatch
    (do
      let settings ← storageSyncGet DEFAULT_SETTINGS
      if settings.showNotifications then
        notificationsCreate (basic "ScreenMind" "正在截屏...")
      let tabs ← tabsQuery
      match tabs.head? with
      | none => Prog.throw "无法获取当前标签页"
      | some tab =>
        let dataUrl ← captureVisibleTab tab.windowId
        if settings.autoAnalyze then
          analyzeScreenshot dataUrl settings
        else
          storageLocalSet { lastScreenshot := some dataUrl }
          if settings.showNotifications then
            notificationsCreate (basic "ScreenMind" "截屏完成！点击扩展图标查看结果。"))
    (fun error =>
      notificationsCreate (basic "ScreenMind - 错误" ("截屏失败: " ++ error)))

/-- The handler of `chrome.commands.onCommand` (lines 28-34). -/
def onCommand (command : String) : Prog Unit :=
  if command = "capture-screen" then captureAndAnalyze else pure ()

/-- The `CAPTURE_SCREEN` branch of the `onMessage` listener (lines 183-190): the value is
what `sendResponse` is called with. -/
def onCaptureScreen : Prog Reply :=
  Prog.tryCatch
    (do
      captureAndAnalyze
      pure { success := true, error := none })
    (fun error => pure { success := false, error := some error })

/-- The `GET_LAST_RESULT` branch of the `onMessage` listener (lines 192-197). -/
def onGetLastResult : Prog Snapshot := do
  let data ← storageLocalGet
  pure { lastScreenshot := data.lastScreenshot, lastAnalysis := data.lastAnalysis,
         lastError := data.lastError }

/-! ## Executing a call -/

/-- One attempt to push a message to a tab, with its fate. -/
structure Push where
  tabId : Nat
  msg : Message
  delivered : Bool

/-- The answers of the platform parts outside the program. -/
structure Env where
  /-- Answer of the n-th `chrome.tabs.query`. -/
  tabs : Nat → List Tab
  /-- The Capture Service. -/
  capture : Nat → Except String String
  /-- The Analysis Client: the network answer to an upload. -/
  fetch : String → FormData → Except String HttpResponse
  /-- Value of the n-th `Date.now()`. -/
  now : Nat → Nat
  /-- Whether a push to the tab reaches a listener. -/
  delivers : Nat → Message → Bool
  /-- The platform conversion of a non-string value to text. -/
  render : Json → String

/-- The two stores and the log of every effect on the platform. -/
structure World where
  sync : SyncStore := {}
  cache : Cache := {}
  notifications : List Notification := []
  captures : List Nat := []
  uploads : List (String × FormData) := []
  pushes : List Push := []
  queries : Nat := 0
  clockReads : Nat := 0

/-- Effect and answer of one platform call. -/
def World.perform (env : Env) (w : World) : (o : Op) → Resp o × World
  | .storageSyncGet defaults => (w.sync.get defaults, w)
  | .storageSyncSet items => ((), { w with sync := w.sync.set items })
  | .storageLocalSet items => ((), { w with cache := w.cache.set items })
  | .storageLocalGet => (w.cache, w)
  | .notificationsCreate n => ((), { w with notifications := w.notifications ++ [n] })
  | .tabsQuery => (env.tabs w.queries, { w with queries := w.queries + 1 })
  | .captureVisibleTab windowId =>
    (env.capture windowId, { w with captures := w.captures ++ [windowId] })
  | .fetchPost url form => (env.fetch url form, { w with uploads := w.uploads ++ [(url, form)] })
  | .dateNow => (env.now w.clockReads, { w with clockReads := w.clockReads + 1 })
  | .tabsSendMessage tabId msg =>
    (env.delivers tabId msg,
     { w with pushes := w.pushes ++ [{ tabId := tabId, msg := msg, delivered := env.delivers tabId msg }] })
  | .toStringOf v => (env.render v, w)

/-- Run a call to completion: the value it resolves with (or the message it rejects with)
and the world it leaves. -/
def Prog.run {α : Type} (env : Env) : Prog α → World → Except String α × World
  | .ret a, w => (.ok a, w)
  | .throw e, w => (.error e, w)
  | .op o k, w => (k (w.perform env o).1).run env (w.perform env o).2

/-! ## The event loop of the service worker -/

/-- Where a call stands after running up to its next `await`. -/
inductive Status (α : Type) where
  | suspended (rest : Prog α)
  | finished (result : Except String α)

/-- Run a call until it finishes or reaches an `await`.  The awaited platform call is issued
(its effect is applied and its answer fixed) before the caller is suspended; `rest` is what
the caller does once it is resumed with that answer. -/
def Prog.advance {α : Type} (env : Env) : Prog α → World → Status α × World
  | .ret a, w => (.finished (.ok a), w)
  | .throw e, w => (.finished (.error e), w)
  | .op o k, w =>
    if o.suspends then (.suspended (k (w.perform env o).1), (w.perform env o).2)
    else (k (w.perform env o).1).advance env (w.perform env o).2

/-- Resume a single call, at most `fuel` times, until it finishes. -/
def Prog.drive {α : Type} (env : Env) : Nat → Prog α → World → Option (Except String α × World)
  | 0, _, _ => none
  | fuel + 1, p, w =>
    match p.advance env w with
    | (.finished result, w1) => some (result, w1)
    | (.suspended rest, w1) => Prog.drive env fuel rest w1

/-- The events that ask for a pipeline run. -/
inductive Trigger where
  | command (name : String)
  | captureScreen

/-- The listener body started by a trigger; the value is the reply owed to the caller, if
there is a caller. -/
def Trigger.handler : Trigger → Prog (Option Reply)
  | .command name => (onCommand name).bind (fun _ => .ret none)
  | .captureScreen => onCaptureScreen.bind (fun r => .ret (some r))

/-- The orchestrator between two events: the world, the calls suspended at an `await`, and
the replies sent so far. -/
structure Orch where
  world : World := {}
  inflight : List (Prog (Option Reply)) := []
  replies : List Reply := []

/-- Bookkeeping once a call has run up to its next `await` or to its end. -/
def Orch.place (o : Orch) (before after : List (Prog (Option Reply))) :
    Status (Option Reply) × World → Orch
  | (.suspended rest, w) =>
    { world := w, inflight := before ++ rest :: after, replies := o.replies }
  | (.finished (.ok (some r)), w) =>
    { world := w, inflight := before ++ after, replies := o.replies ++ [r] }
  | (.finished _, w) =>
    { world := w, inflight := before ++ after, replies := o.replies }

/-- A trigger arrives: its listener runs at once, whatever is in flight. -/
def Orch.receive (env : Env) (o : Orch) (t : Trigger) : Orch :=
  o.place o.inflight [] (t.handler.advance env o.world)

/-- The awaited answer of the i-th suspended call arrives and the call goes on. -/
def Orch.resume (env : Env) (o : Orch) (i : Nat) : Orch :=
  match o.inflight.get? i with
  | some p => o.place (o.inflight.take i) (o.inflight.drop (i + 1)) (p.advance env o.world)
  | none => o

/-- Resume suspended calls in the given order. -/
def Orch.resumeAll (env : Env) (o : Orch) (schedule : List Nat) : Orch :=
  schedule.foldl (Orch.resume env) o

/-! ## Concrete scenarios -/

/-- The analysis result of the end-to-end scenario: analysis text and time, no answer. -/
def scenarioResult : Json :=
  .obj [("data", .obj [("analysis", .str "2+2=4"), ("analysis_time", .num 12 (-1))])]

/-- A platform on which everything works: one active tab in window 3, a capture, a server
answering 200 with `scenarioResult`, a clock starting at 1000, and no listener in the tab. -/
def scenarioEnv : Env where
  tabs := fun _ => [{ id := 7, windowId := 3 }]
  capture := fun _ => .ok "data:image/png;base64,AAAA"
  fetch := fun _ _ => .ok { status := 200, body := .ok scenarioResult }
  now := fun n => 1000 + n
  delivers := fun _ _ => false
  render := fun _ => "[object Object]"

/-- The platform of `scenarioEnv` with another answer from the server. -/
def serverAnswers (answer : Except String HttpResponse) : Env :=
  { scenarioEnv with fetch := fun _ _ => answer }

/-- The platform of `scenarioEnv` with no active tab. -/
def noActiveTab : Env :=
  { scenarioEnv with tabs := fun _ => [] }

/-- The platform of `scenarioEnv` with a Capture Service that refuses. -/
def captureRefused : Env :=
  { scenarioEnv with capture := fun _ => .error "Cannot access contents of the page" }

/-- A world whose Result Cache holds the record of an earlier failed run. -/
def afterFailure : World :=
  { cache := { lastError := some "model unavailable", lastErrorTime := some 900 } }

/-- A world whose Result Cache holds the record of an earlier analysed run. -/
def afterAnalysis : World :=
  { sync := { autoAnalyze := some false }
    cache := { lastScreenshot := some "data:image/png;base64,OLD", lastAnalysis := some scenarioResult,
               lastAnalysisTime := some 900 } }

/-- A first run, started by `CAPTURE_SCREEN` on an idle orchestrator and resumed until its
upload has been issued and not yet answered. -/
def uploadingState : Orch :=
  (Orch.receive scenarioEnv {} .captureScreen).resumeAll scenarioEnv [0, 0, 0]

/-- The state `uploadingState` after a second `CAPTURE_SCREEN` whose run is resumed to its
end while the first one is left waiting for its upload. -/
def secondRunDone : Orch :=
  (uploadingState.receive scenarioEnv .captureScreen).resumeAll scenarioEnv [1, 1, 1, 1, 1, 1]

/-! ## Timing and failure of a run -/

/-- A platform together with the time, in seconds, that the Analysis Client takes to answer
an upload. -/
structure TimedEnv extends Env where
  analysisSeconds : Nat

/-- The analysis timeout in force: the stored `analysisTimeout`, or the default 30 of
options.js when the key is absent. -/
def SyncStore.timeoutInForce (s : SyncStore) : Int := s.analysisTimeout.getD 30

/-- The world with another value under the `analysisTimeout` key of the Settings Store. -/
def World.withTimeout (w : World) (timeout : Option Int) : World :=
  { w with sync := { w.sync with analysisTimeout := timeout } }

/-- The stage of the pipeline in which a run fails. -/
inductive Stage where
  | capture
  | analysis
deriving DecidableEq

/-- The failure notification of each stage (lines 88-93 and 166-171) for an error message. -/
def failureNotification : Stage → String → Notification
  | .capture, message => basic "ScreenMind - 错误" ("截屏失败: " ++ message)
  | .analysis, message => basic "ScreenMind - 分析失败" ("分析失败: " ++ message)

/-- The run started in world `w` finds the active tab `tab`, captures image `d`, uploads it
and the Analysis Client gives `answer`. -/
def Uploads (env : Env) (w : World) (tab : Tab) (d : String)
    (answer : Except String HttpResponse) : Prop :=
  (env.tabs w.queries).head? = some tab ∧ env.capture tab.windowId = .ok d ∧
    (w.sync.get DEFAULT_SETTINGS).autoAnalyze = true ∧
    env.fetch ((w.sync.get DEFAULT_SETTINGS).serverUrl ++ "/api/v1/analyze")
      { name := "image", blob := dataUrlToBlob d, filename := "screenshot.png" } = answer

/-- The ways a run started in world `w` fails, each with its stage and error message. -/
inductive RunFails (env : Env) (w : World) : Stage → String → Prop where
  | noActiveTab : (env.tabs w.queries).head? = none →
      RunFails env w .capture "无法获取当前标签页"
  | captureFailed (tab : Tab) (e : String) :
      (env.tabs w.queries).head? = some tab → env.capture tab.windowId = .error e →
      RunFails env w .capture e
  | uploadFailed (tab : Tab) (d e : String) :
      Uploads env w tab d (.error e) → RunFails env w .analysis e
  | bodyUnreadable (tab : Tab) (d : String) (resp : HttpResponse) (e : String) :
      Uploads env w tab d (.ok resp) → resp.body = .error e → RunFails env w .analysis e
  | detailUnreadable (tab : Tab) (d : String) (resp : HttpResponse) (body : Json) (e : String) :
      Uploads env w tab d (.ok resp) → resp.ok = false → resp.body = .ok body →
      body.prop "detail" = .error e → RunFails env w .analysis e
  | detailText (tab : Tab) (d : String) (resp : HttpResponse) (body : Json) (detail : String) :
      Uploads env w tab d (.ok resp) → resp.ok = false → resp.body = .ok body →
      body.prop "detail" = .ok (some (.str detail)) → detail ≠ "" →
      RunFails env w .analysis detail
  | detailValue (tab : Tab) (d : String) (resp : HttpResponse) (body detail : Json) :
      Uploads env w tab d (.ok resp) → resp.ok = false → resp.body = .ok body →
      body.prop "detail" = .ok (some detail) → detail.truthy = true →
      (∀ s, detail ≠ .str s) → RunFails env w .analysis (env.render detail)
  | detailFalsy (tab : Tab) (d : String) (resp : HttpResponse) (body detail : Json) :
      Uploads env w tab d (.ok resp) → resp.ok = false → resp.body = .ok body →
      body.prop "detail" = .ok (some detail) → detail.truthy = false →
      RunFails env w .analysis ("API错误: " ++ toString resp.status)
  | detailAbsent (tab : Tab) (d : String) (resp : HttpResponse) (body : Json) :
      Uploads env w tab d (.ok resp) → resp.ok = false → resp.body = .ok body →
      body.prop "detail" = .ok none →
      RunFails env w .analysis ("API错误: " ++ toString resp.status)

/-! ## options.js and the settings writers of popup.js

The options page and the popup run no asynchronous pipeline: each handler is a function from
the page and the Settings Store to the page and the store.  A number field is represented by
what `parseInt` reads from it (`none` is `NaN`), a toggle by whether it carries the class
`active`.  The URL parser of the platform (`new URL`) is a parameter: it gives the protocol of
the parsed URL, or `none` when the constructor throws.  The health check that follows a save
or a reset only paints the status indicator and is left out. -/

/-- A settings object with the six keys of `defaultSettings` in options.js. -/
structure OptionsSettings where
  serverUrl : String
  autoAnalyze : Bool
  showNotifications : Bool
  saveHistory : Bool
  analysisTimeout : Int
  maxHistoryItems : Int
deriving DecidableEq

/-- The constant `defaultSettings` of options.js (lines 18-25). -/
def defaultSettings : OptionsSettings :=
  { serverUrl := "http://localhost:8000", autoAnalyze := true, showNotifications := true,
    saveHistory := true, analysisTimeout := 30, maxHistoryItems := 100 }

/-- What `chrome.storage.sync.get(defaults)` answers for any defaults object, given as the
partial record of its keys: the keys of `defaults` only, each with the stored value when the
key is present in the store and the default otherwise. -/
def SyncStore.read (s defaults : SyncStore) : SyncStore :=
  { serverUrl := defaults.serverUrl.map fun d => s.serverUrl.getD d
    autoAnalyze := defaults.autoAnalyze.map fun d => s.autoAnalyze.getD d
    showNotifications := defaults.showNotifications.map fun d => s.showNotifications.getD d
    saveHistory := defaults.saveHistory.map fun d => s.saveHistory.getD d
    analysisTimeout := defaults.analysisTimeout.map fun d => s.analysisTimeout.getD d
    maxHistoryItems := defaults.maxHistoryItems.map fun d => s.maxHistoryItems.getD d }

/-- The three-key object of background.js as a record of keys. -/
def Settings.asObject (v : Settings) : SyncStore :=
  { serverUrl := some v.serverUrl, autoAnalyze := some v.autoAnalyze,
    showNotifications := some v.showNotifications }

/-- The six-key object of options.js as a record of keys. -/
def OptionsSettings.asObject (v : OptionsSettings) : SyncStore :=
  { serverUrl := some v.serverUrl, autoAnalyze := some v.autoAnalyze,
    showNotifications := some v.showNotifications, saveHistory := some v.saveHistory,
    analysisTimeout := some v.analysisTimeout, maxHistoryItems := some v.maxHistoryItems }

/-- What `chrome.storage.sync.get(defaultSettings)` answers on the options page. -/
def SyncStore.getAll (s : SyncStore) (defaults : OptionsSettings) : OptionsSettings :=
  { serverUrl := s.serverUrl.getD defaults.serverUrl
    autoAnalyze := s.autoAnalyze.getD defaults.autoAnalyze
    showNotifications := s.showNotifications.getD defaults.showNotifications
    saveHistory := s.saveHistory.getD defaults.saveHistory
    analysisTimeout := s.analysisTimeout.getD defaults.analysisTimeout
    maxHistoryItems := s.maxHistoryItems.getD defaults.maxHistoryItems }

/-- What `chrome.storage.sync.set(settings)` does with a six-key object: every key of the
store is overwritten. -/
def SyncStore.setAll (s : SyncStore) (v : OptionsSettings) : SyncStore :=
  { s with
    serverUrl := some v.serverUrl
    autoAnalyze := some v.autoAnalyze
    showNotifications := some v.showNotifications
    saveHistory := some v.saveHistory
    analysisTimeout := some v.analysisTimeout
    maxHistoryItems := some v.maxHistoryItems }

/-- The white space and line terminators that `String.prototype.trim` removes. -/
def isJsSpace (c : Char) : Bool :=
  c.toNat ∈ [9, 10, 11, 12, 13, 32, 160, 5760, 8232, 8233, 8239, 8287, 12288, 65279] ||
    (decide (8192 ≤ c.toNat) && decide (c.toNat ≤ 8202))

/-- The method `trim()`. -/
def jsTrim (s : String) : String :=
  String.mk ((s.toList.dropWhile isJsSpace).reverse.dropWhile isJsSpace).reverse

/-- The expression `text || fallback` on strings. -/
def textOr (text fallback : String) : String :=
  if text = "" then fallback else text

/-- The expression `parseInt(field) || fallback`: `NaN` and 0 give the fallback. -/
def parsedOr (parsed : Option Int) (fallback : Int) : Int :=
  match parsed with
  | some n => if n = 0 then fallback else n
  | none => fallback

/-- The function `isValidUrl` (options.js lines 210-217). -/
def isValidUrl (parse : String → Option String) (string : String) : Bool :=
  match parse string with
  | some protocol => protocol == "http:" || protocol == "https:"
  | none => false

namespace Options

/-- The form and the two message boxes of the options page. -/
structure Page where
  serverUrlInput : String := ""
  autoAnalyzeToggle : Bool := false
  notificationToggle : Bool := false
  saveHistoryToggle : Bool := false
  analysisTimeoutInput : Option Int := none
  maxHistoryItemsInput : Option Int := none
  successMessage : Option String := none
  errorMessage : Option String := none
deriving DecidableEq

/-- The function `showSuccess` (lines 188-196), up to the timer that hides the box. -/
def showSuccess (page : Page) (message : String) : Page :=
  { page with successMessage := some message, errorMessage := none }

/-- The function `showError` (lines 199-207), up to the timer that hides the box. -/
def showError (page : Page) (message : String) : Page :=
  { page with errorMessage := some message, successMessage := none }

/-- The function `loadSettings` (lines 35-52): read the store, fill the form. -/
def loadSettings (store : SyncStore) (page : Page) : Page :=
  let settings := store.getAll defaultSettings
  { page with
    serverUrlInput := settings.serverUrl
    analysisTimeoutInput := some settings.analysisTimeout
    maxHistoryItemsInput := some settings.maxHistoryItems
    autoAnalyzeToggle := settings.autoAnalyze
    notificationToggle := settings.showNotifications
    saveHistoryToggle := settings.saveHistory }

/-- The object `settings` that `saveSettings` builds from the form (lines 57-64). -/
def Page.settings (page : Page) : OptionsSettings :=
  { serverUrl := textOr (jsTrim page.serverUrlInput) defaultSettings.serverUrl
    autoAnalyze := page.autoAnalyzeToggle
    showNotifications := page.notificationToggle
    saveHistory := page.saveHistoryToggle
    analysisTimeout := parsedOr page.analysisTimeoutInput defaultSettings.analysisTimeout
    maxHistoryItems := parsedOr page.maxHistoryItemsInput defaultSettings.maxHistoryItems }

/-- The `try` block of `saveSettings` (lines 57-79): the store it leaves, or the message of
the error it throws. -/
def trySave (parse : String → Option String) (page : Page) (store : SyncStore) :
    Except String SyncStore := do
  let settings := page.settings
  if !isValidUrl parse settings.serverUrl then
    throw "请输入有效的服务器地址"
  if settings.analysisTimeout < 10 || settings.analysisTimeout > 120 then
    throw "分析超时时间必须在10-120秒之间"
  if settings.maxHistoryItems < 10 || settings.maxHistoryItems > 1000 then
    throw "最大历史记录数必须在10-1000之间"
  pure (store.setAll settings)

/-- The function `saveSettings` (lines 55-91). -/
def saveSettings (parse : String → Option String) (page : Page) (store : SyncStore) :
    Page × SyncStore :=
  match trySave parse page store with
  | .ok saved => (showSuccess page "设置已保存成功！", saved)
  | .error message => (showError page ("保存设置失败: " ++ message), store)

/-- The function `resetSettings` (lines 94-108). -/
def resetSettings (page : Page) (store : SyncStore) : Page × SyncStore :=
  (showSuccess (loadSettings (store.setAll defaultSettings) page) "设置已重置为默认值！",
    store.setAll defaultSettings)

end Options

/-! ## popup.js -/

namespace Popup

/-- What the result section of the popup displays. -/
inductive Shown where
  | nothing
  | result (r : Json)
  | error (message : String)

/-- The two toggles, the time label and the result section of the popup. -/
structure Page where
  autoAnalyzeToggle : Bool := false
  notificationToggle : Bool := false
  /-- The instant whose `formatTime` text the label `lastCapture` carries. -/
  lastCapture : Option Nat := none
  shown : Shown := .nothing

/-- The function `loadSettings` (lines 24-36). -/
def loadSettings (store : SyncStore) (page : Page) : Page :=
  { page with
    autoAnalyzeToggle := store.autoAnalyze.getD true
    notificationToggle := store.showNotifications.getD true }

/-- The click listener of the auto-analyze toggle (lines 143-148). -/
def onAutoAnalyzeToggleClick (page : Page) (store : SyncStore) : Page × SyncStore :=
  let isActive := page.autoAnalyzeToggle
  ({ page with autoAnalyzeToggle := !isActive }, { store with autoAnalyze := some (!isActive) })

/-- The click listener of the notification toggle (lines 151-156). -/
def onNotificationToggleClick (page : Page) (store : SyncStore) : Page × SyncStore :=
  let isActive := page.notificationToggle
  ({ page with notificationToggle := !isActive },
    { store with showNotifications := some (!isActive) })

/-- The function `showResult` (lines 87-106): it renders when `result` and `result.data` are
both truthy and leaves the section as it is otherwise. -/
def showResult (result : Json) (page : Page) : Page :=
  if result.truthy && ((result.field? "data").map Json.truthy).getD false then
    { page with shown := .result result }
  else page

/-- The function `showError` (lines 109-117). -/
def showError (error : String) (page : Page) : Page :=
  { page with shown := .error error }

/-- The function `loadLastResult` (lines 62-84).  A key is falsy when it is absent, and
also when it holds 0, a falsy JSON value or the empty string. -/
def loadLastResult (cache : Cache) (page : Page) : Page :=
  match cache.lastAnalysisTime.filter fun time => time != 0 with
  | some time =>
    let page := { page with lastCapture := some time }
    match cache.lastAnalysis.filter Json.truthy with
    | some analysis => showResult analysis page
    | none =>
      match cache.lastError.filter fun error => error != "" with
      | some error => showError error page
      | none => page
  | none => page

/-- Whether the result section displays an error message, and which. -/
def Page.shownError (page : Page) : Option String :=
  match page.shown with
  | .error message => some message
  | _ => none

/-- Whether the result section displays an analysis result. -/
def Page.showsResult (page : Page) : Bool :=
  match page.shown with
  | .result _ => true
  | _ => false

end Popup

/-! ## content.js -/

namespace Content

/-- A result container attached to the page. -/
structure Overlay where
  /-- The identity of the `div` element. -/
  id : Nat
  /-- The analysis result its markup renders. -/
  result : Json
  /-- Whether the slide-out animation has been set on it. -/
  slidingOut : Bool := false

/-- The two callbacks handed to `setTimeout`. -/
inductive TimerKind where
  /-- The callback of lines 184-189, set by the close listener. -/
  | remove
  /-- The callback of lines 209-213, set by each `showAnalysisResult`. -/
  | autoClose
deriving DecidableEq

/-- A pending timer: when it is due (in ms), what it runs, and the container whose
`showAnalysisResult` call created the callback. -/
structure Timer where
  due : Nat
  kind : TimerKind
  owner : Nat
deriving DecidableEq

/-- The content script in a page: the variable `resultContainer` (an element, attached or
not), the result containers attached to the document, the number of containers created so
far, the pending timers and the time in ms. -/
structure Page where
  resultContainer : Option Nat := none
  attached : List Overlay := []
  created : Nat := 0
  timers : List Timer := []
  clock : Nat := 0

/-- The message of the `TypeError` raised by reading a property of `undefined`. -/
def undefinedReadMessage (key : String) : String :=
  "Cannot read properties of undefined (reading '" ++ key ++ "')"

/-- Evaluation of the template literal of lines 26-48: it throws when `result.data` cannot
be read or is `undefined` or `null`; otherwise the markup renders `result`. -/
def markup (result : Json) : Except String Json :=
  match result.prop "data" with
  | .error e => .error e
  | .ok none => .error (undefinedReadMessage "analysis")
  | .ok (some data) =>
    match data.prop "analysis" with
    | .error e => .error e
    | .ok _ => .ok result

/-- The call `element.remove()` on the element `id`. -/
def detach (id : Nat) (attached : List Overlay) : List Overlay :=
  attached.filter fun o => o.id != id

/-- The click listener of a close button (lines 182-190), bound in the call that created
container `owner`.  It acts on the variable `resultContainer`; with the variable `null` the
first statement throws and nothing happens. -/
def onCloseClick (owner : Nat) (page : Page) : Page :=
  match page.resultContainer with
  | none => page
  | some current =>
    { page with
      attached := page.attached.map fun o =>
        if o.id = current then { o with slidingOut := true } else o
      timers := page.timers ++ [{ due := page.clock + 300, kind := .remove, owner := owner }] }

/-- The function `showAnalysisResult` (lines 16-220). -/
def showAnalysisResult (result : Json) (page : Page) : Page :=
  let attached :=
    match page.resultContainer with
    | some previous => detach previous page.attached
    | none => page.attached
  let container := page.created
  let page := { page with resultContainer := some container, attached := attached,
                          created := page.created + 1 }
  match markup result with
  | .error _ => page
  | .ok rendered =>
    { page with
      attached := page.attached ++ [{ id := container, result := rendered }]
      timers := page.timers ++
        [{ due := page.clock + 8000, kind := .autoClose, owner := container }] }

/-- The `onMessage` listener (lines 8-13). -/
def onMessage (request : Message) (page : Page) : Page :=
  if request.type = "ANALYSIS_COMPLETE" then showAnalysisResult request.data page else page

/-- The body of a timer callback. -/
def Timer.run (t : Timer) (page : Page) : Page :=
  match t.kind with
  | .remove =>
    match page.resultContainer with
    | some current => { page with attached := detach current page.attached,
                                  resultContainer := none }
    | none => page
  | .autoClose =>
    match page.resultContainer with
    | some _ => onCloseClick t.owner page
    | none => page

/-- What happens in the page. -/
inductive Event where
  /-- Time passes. -/
  | elapse (ms : Nat)
  /-- A message from the background script arrives. -/
  | message (request : Message)
  /-- The user clicks the close button of the attached container `id`. -/
  | click (id : Nat)
  /-- The i-th pending timer fires; a timer only fires once it is due. -/
  | fire (i : Nat)

/-- One event. -/
def Page.step (page : Page) : Event → Page
  | .elapse ms => { page with clock := page.clock + ms }
  | .message request => onMessage request page
  | .click id => if page.attached.any (fun o => o.id == id) then onCloseClick id page else page
  | .fire i =>
    match page.timers.get? i with
    | some t =>
      if t.due ≤ page.clock then t.run { page with timers := page.timers.eraseIdx i }
      else page
    | none => page

/-- A sequence of events, from the left. -/
def Page.steps (page : Page) (events : List Event) : Page :=
  events.foldl Page.step page

/-- The ids of the attached result containers. -/
def Page.displayed (page : Page) : List Nat :=
  page.attached.map fun o => o.id

end Content

/-! ## The writers of the Settings Store -/

/-- The range constraints on a store: a stored analysis timeout is in [10, 120], a stored
history cap is in [10, 1000], a stored server URL parses as an http or https URL. -/
def SyncStore.WithinRanges (parse : String → Option String) (s : SyncStore) : Prop :=
  (∀ t, s.analysisTimeout = some t → 10 ≤ t ∧ t ≤ 120) ∧
  (∀ m, s.maxHistoryItems = some m → 10 ≤ m ∧ m ≤ 1000) ∧
  (∀ u, s.serverUrl = some u → isValidUrl parse u = true)

/-- The store states reachable from the empty store through the writers of the program: the
install handler, `saveSettings`, `resetSettings` and the two toggles of the popup. -/
inductive Reachable (parse : String → Option String) : SyncStore → Prop where
  | empty : Reachable parse {}
  | install (env : Env) (w : World) :
      Reachable parse w.sync → Reachable parse (onInstalled.run env w).2.sync
  | save (page : Options.Page) (s : SyncStore) :
      Reachable parse s → Reachable parse (Options.saveSettings parse page s).2
  | reset (page : Options.Page) (s : SyncStore) :
      Reachable parse s → Reachable parse (Options.resetSettings page s).2
  | toggleAutoAnalyze (page : Popup.Page) (s : SyncStore) :
      Reachable parse s → Reachable parse (Popup.onAutoAnalyzeToggleClick page s).2
  | toggleNotifications (page : Popup.Page) (s : SyncStore) :
      Reachable parse s → Reachable parse (Popup.onNotificationToggleClick page s).2

/-- The containers attached to the page are at most the one that the variable
`resultContainer` refers to. -/
def Content.Page.Tidy (page : Content.Page) : Prop :=
  page.attached.length ≤ 1 ∧ ∀ o ∈ page.attached, page.resultContainer = some o.id

/-! ## Further concrete scenarios -/

/-- The scenario platform with an Analysis Client that needs an hour to answer. -/
def slowAnalysis : TimedEnv :=
  { scenarioEnv with analysisSeconds := 3600 }

/-- An empty world whose Settings Store holds the shortest analysis timeout, 10 seconds. -/
def shortTimeout : World :=
  { sync := { analysisTimeout := some 10 } }

/-- An empty world whose Settings Store has notifications switched off. -/
def notificationsOff : World :=
  { sync := { showNotifications := some false } }

/-- What the URL parser of the platform answers on the URLs of the examples: the protocol
of the three well-formed ones; every other string is taken not to parse. -/
def exampleParse (s : String) : Option String :=
  if s = "http://localhost:8000" then some "http:"
  else if s = "https://screenmind.example" then some "https:"
  else if s = "ftp://x" then some "ftp:"
  else none

/-- A form holding acceptable values. -/
def goodForm : Options.Page :=
  { serverUrlInput := "https://screenmind.example", autoAnalyzeToggle := false,
    notificationToggle := true, saveHistoryToggle := false,
    analysisTimeoutInput := some 60, maxHistoryItemsInput := some 500 }

/-- A store written by an earlier save. -/
def savedStore : SyncStore :=
  { serverUrl := some "https://screenmind.example", autoAnalyze := some false,
    showNotifications := some true, saveHistory := some false,
    analysisTimeout := some 60, maxHistoryItems := some 500 }

/-- A form with a blank server URL, a zero timeout and an unreadable history cap. -/
def blankForm : Options.Page :=
  { serverUrlInput := "   ", autoAnalyzeToggle := true, notificationToggle := true,
    saveHistoryToggle := true, analysisTimeoutInput := some 0, maxHistoryItemsInput := none }

/-- A Result Cache holding an analysis stored at 900 and an error recorded later, at 1000. -/
def errorAfterAnalysis : Cache :=
  { lastScreenshot := some "data:image/png;base64,AAAA", lastAnalysis := some scenarioResult,
    lastAnalysisTime := some 900, lastError := some "Failed to fetch",
    lastErrorTime := some 1000 }

/-- The push of the scenario result. -/
def scenarioPush : Message :=
  { type := "ANALYSIS_COMPLETE", data := scenarioResult }

/-- A first push at 0 ms and a second one at 5000 ms. -/
def twoPushes : Content.Page :=
  Content.Page.steps {} [.message scenarioPush, .elapse 5000, .message scenarioPush]

/-- After `twoPushes`: at 8000 ms the auto-dismiss timer of the first container fires, and at
8300 ms the removal timer that it started. -/
def firstTimerFires : Content.Page :=
  twoPushes.steps [.elapse 3000, .fire 0, .elapse 300, .fire 1]

/-- A push at 0 ms, a click on its close button at 100 ms, a second push at 200 ms, and at
400 ms the removal timer started by the click. -/
def closeThenPush : Content.Page :=
  Content.Page.steps {}
    [.message scenarioPush, .elapse 100, .click 0, .elapse 100, .message scenarioPush,
     .elapse 200, .fire 1]

/-! ## The relative time of the popup and of the index page

An instant is a number of milliseconds since the epoch.  Both functions divide a positive
difference by a positive constant, where `/` on integers is `Math.floor` of the quotient.
The calendar reading of an instant (local date, month, day of month) belongs to the
platform and is a parameter. -/

/-- The function `formatTime` of popup.js (lines 120-133); `now` is `new Date()`. -/
def Popup.formatTime (toLocaleDateString : Int → String) (now date : Int) : String :=
  let diff := now - date
  if diff < 60000 then
    "刚刚"
  else if diff < 3600000 then
    toString (diff / 60000) ++ "分钟前"
  else if diff < 86400000 then
    toString (diff / 3600000) ++ "小时前"
  else
    toLocaleDateString date

namespace Index

/-- The function `formatTime` of pages/index/index.js (lines 242-256); `now` is `new Date()`,
`date` the instant of `new Date(timestamp)`. -/
def formatTime (getMonth getDate : Int → Nat) (now date : Int) : String :=
  let diff := now - date
  if diff < 60000 then
    "刚刚"
  else if diff < 3600000 then
    toString (diff / 60000) ++ "分钟前"
  else if diff < 86400000 then
    toString (diff / 3600000) ++ "小时前"
  else
    toString (getMonth date + 1) ++ "月" ++ toString (getDate date) ++ "日"

end Index

/-! ## The history page of the mini program (pages/history/history.js)

The page is its `data`, the calls of `loadHistoryList` suspended at their `await`, and a log
of requests and toasts.  `loadStatistics` writes only the three counters and is left out.
Each list entry remembers the `filter` parameter of the request that returned it. -/

namespace App

/-- How a `wx.request` ends: the `success` callback with a status code and a body, or the
`fail` callback with an error. -/
inductive WxOutcome where
  | success (statusCode : Nat) (data : Json)
  | fail (errMsg : String)

/-- The promise of `app.request` (app.js lines 142-165): it resolves with the body of a 200
answer and rejects otherwise. -/
def request : WxOutcome → Except String Json
  | .success statusCode data =>
    if statusCode = 200 then .ok data else .error ("请求失败: " ++ toString statusCode)
  | .fail errMsg => .error errMsg

end App

namespace History

/-- The parts of the page that belong to the host: the device id read from storage, the text
of `this.formatTime(item.created_at)`, which reads the local calendar, the number
`Math.round(item.confidence * 100)`, and the conversion to text of a value other than a
string that is used as a property key. -/
structure Host where
  deviceId : String
  formatTime : Option Json → String
  percent : Json → Json
  keyOf : Json → String

/-- The names that the table `typeMap`, like every object, inherits from its prototype. -/
def inheritedMembers : List String :=
  ["constructor", "hasOwnProperty", "isPrototypeOf", "propertyIsEnumerable", "toLocaleString",
   "toString", "valueOf", "__proto__", "__defineGetter__", "__defineSetter__",
   "__lookupGetter__", "__lookupSetter__"]

/-- What `getTypeText` returns: a text, or, for a key that names an inherited member of the
table, that member, which is truthy and so is not replaced by the fallback text. -/
inductive TypeText where
  | text (s : String)
  | member (name : String)
deriving DecidableEq

/-- The function `getTypeText` (lines 149-158) for a missing or JSON `type`: the read
`typeMap[type]` converts `type` to a property key and also finds inherited members. -/
def getTypeText (host : Host) (type : Option Json) : TypeText :=
  let key :=
    match type with
    | none => "undefined"
    | some (.str s) => s
    | some v => host.keyOf v
  if key = "math" then .text "数学题"
  else if key = "text" then .text "文本题"
  else if key = "image" then .text "图像题"
  else if key = "code" then .text "代码题"
  else if key = "other" then .text "其他"
  else if key ∈ inheritedMembers then .member key
  else .text "未知"

/-- An element of `historyList`: the item of the response with the three fields added by
`loadHistoryList`, and the `filter` parameter of the request that returned it. -/
structure Entry where
  item : Json
  typeText : TypeText
  timeText : String
  confidence : Json
  fetchedWith : String

/-- The parameters of a history request (lines 52-61). -/
structure Request where
  url : String
  method : String
  deviceId : String
  page : Nat
  pageSize : Nat
  filter : String
deriving DecidableEq

/-- A call of `loadHistoryList` suspended at its `await`: its argument, its local `page` and
the request it waits for. -/
structure Call where
  reset : Bool
  page : Nat
  request : Request
deriving DecidableEq

/-- The `data` of the page, without the three counters (lines 5-15). -/
structure Data where
  historyList : List Entry := []
  currentFilter : String := "all"
  loading : Bool := false
  hasMore : Option Json := some (.bool true)
  page : Nat := 1
  pageSize : Nat := 20

/-- The page between two events. -/
structure Page where
  data : Data := {}
  pending : List Call := []
  requests : List Request := []
  toasts : List String := []

/-- The callback of `map` (lines 63-68) on one item of the response. -/
def decorate (host : Host) (filter : String) (item : Json) : Except String Entry := do
  let type ← item.prop "type"
  let created ← item.prop "created_at"
  let confidence ← item.prop "confidence"
  pure { item := item
         typeText := getTypeText host type
         timeText := host.formatTime created
         confidence :=
           match confidence with
           | some c => if c.truthy then host.percent c else .null
           | none => .null
         fetchedWith := filter }

/-- The reads `res.data.list` and `res.data.hasMore` (lines 63 and 72): the array to map and
the new `hasMore`, or the message of the `TypeError`. -/
def readList (res : Json) : Except String (List Json × Option Json) := do
  let data ← res.prop "data"
  match data with
  | none => throw (Content.undefinedReadMessage "list")
  | some data =>
    let list ← data.prop "list"
    let hasMore ← data.prop "hasMore"
    match list with
    | some (.arr items) => pure (items, hasMore)
    | some _ => throw "res.data.list.map is not a function"
    | none => throw (Content.undefinedReadMessage "map")

/-- The call that `loadHistoryList(reset)` suspends (lines 49-61). -/
def callOf (host : Host) (reset : Bool) (p : Page) : Call :=
  let page := if reset then 1 else p.data.page
  { reset := reset
    page := page
    request := { url := "/api/v1/miniprogram/history", method := "GET",
                 deviceId := host.deviceId, page := page, pageSize := p.data.pageSize,
                 filter := p.data.currentFilter } }

/-- The function `loadHistoryList(reset)` up to its `await` (lines 43-61). -/
def loadHistoryList (host : Host) (reset : Bool) (p : Page) : Page :=
  if p.data.loading then p
  else
    { p with
      data := { p.data with loading := true }
      pending := p.pending ++ [callOf host reset p]
      requests := p.requests ++ [(callOf host reset p).request] }

/-- What the `try` block computes from the answer (lines 52-68): the new entries and the
new `hasMore`, or the message of the error thrown. -/
def Call.read (host : Host) (call : Call) (response : Except String Json) :
    Except String (List Entry × Option Json) := do
  let res ← response
  let (items, hasMore) ← readList res
  let newList ← items.mapM (decorate host call.request.filter)
  pure (newList, hasMore)

/-- The rest of `loadHistoryList` once the request has ended (lines 63-83). -/
def Call.resume (host : Host) (call : Call) (response : Except String Json) (p : Page) : Page :=
  let p :=
    match call.read host response with
    | .ok (newList, hasMore) =>
      { p with
        data := { p.data with
          historyList := if call.reset then newList else p.data.historyList ++ newList
          hasMore := hasMore
          page := call.page + 1 } }
    | .error _ => { p with toasts := p.toasts ++ ["加载失败"] }
  { p with data := { p.data with loading := false } }

/-- The function `handleFilterChange` (lines 87-98) for a tap on `filter`. -/
def handleFilterChange (host : Host) (filter : String) (p : Page) : Page :=
  if filter = p.data.currentFilter then p
  else
    loadHistoryList host true
      { p with data := { p.data with currentFilter := filter, page := 1,
                                     hasMore := some (.bool true) } }

/-- The function `handleLoadMore` (lines 144-146). -/
def handleLoadMore (host : Host) (p : Page) : Page :=
  loadHistoryList host false p

/-- The function `onReachBottom` (lines 189-193). -/
def onReachBottom (host : Host) (p : Page) : Page :=
  if ((p.data.hasMore.map Json.truthy).getD false) && !p.data.loading then
    handleLoadMore host p
  else p

/-- What happens on the history page. -/
inductive Event where
  /-- The page opens (`onLoad`). -/
  | load
  /-- The user taps a filter. -/
  | filterChange (filter : String)
  /-- The user asks for more. -/
  | loadMore
  /-- The list is scrolled to its end. -/
  | reachBottom
  /-- The user pulls down to refresh. -/
  | pullDownRefresh
  /-- The request of the i-th suspended call ends. -/
  | complete (i : Nat) (outcome : App.WxOutcome)

/-- One event. -/
def Page.step (host : Host) (p : Page) : Event → Page
  | .load => loadHistoryList host false p
  | .filterChange filter => handleFilterChange host filter p
  | .loadMore => handleLoadMore host p
  | .reachBottom => onReachBottom host p
  | .pullDownRefresh => loadHistoryList host true p
  | .complete i outcome =>
    match p.pending.get? i with
    | some call => call.resume host (App.request outcome) { p with pending := p.pending.eraseIdx i }
    | none => p

/-- A sequence of events, from the left. -/
def Page.steps (host : Host) (p : Page) (events : List Event) : Page :=
  events.foldl (Page.step host) p

/-- The request filters under which the entries of the list were fetched. -/
def Page.provenance (p : Page) : List String :=
  p.data.historyList.map fun e => e.fetchedWith

end History

/-! ## Scenarios of the history page -/

/-- A host with fixed texts for the parts the examples do not look at. -/
def exampleHost : History.Host :=
  { deviceId := "device-1", formatTime := fun _ => "今天 09:30", percent := fun _ => .num 90 0,
    keyOf := fun _ => "[object Object]" }

/-- The body of a history answer with the given items and `hasMore` true. -/
def historyAnswer (items : List Json) : Json :=
  .obj [("data", .obj [("list", .arr items), ("hasMore", .bool true)])]

/-- A item of a history answer. -/
def historyItem (id : Int) : Json :=
  .obj [("id", .num id 0), ("type", .str "math"), ("created_at", .num 1700000000000 0),
        ("confidence", .num 9 (-1))]

/-- The page opens, the user taps the filter `math` while the first load is in flight, and
the first request then answers with one item. -/
def filterTappedWhileLoading : History.Page :=
  History.Page.steps exampleHost {}
    [.load, .filterChange "math", .complete 0 (.success 200 (historyAnswer [historyItem 1]))]

/-- The page opens and loads one item, the user taps the filter `math`, and the request of
the new filter fails. -/
def filterRequestFails : History.Page :=
  History.Page.steps exampleHost {}
    [.load, .complete 0 (.success 200 (historyAnswer [historyItem 1])), .filterChange "math",
     .complete 0 (.fail "request:fail timeout")]

/-- A history page that has loaded its first page under the filter `all`. -/
def firstPageLoaded : History.Page :=
  History.Page.steps exampleHost {}
    [.load, .complete 0 (.success 200 (historyAnswer [historyItem 1, historyItem 2]))]

/-! ## Execution lemmas -/

@[simp] theorem Prog.pure_eq {α : Type} (a : α) : (pure a : Prog α) = Prog.ret a := rfl

@[simp] theorem Prog.bind_eq {α β : Type} (p : Prog α) (f : α → Prog β) :
    (p >>= f) = p.bind f := rfl

/-- Running a sequence is running its parts in order; a rejection skips the rest. -/
theorem Prog.run_bind {α β : Type} (env : Env) (p : Prog α) (f : α → Prog β) (w : World) :
    (p.bind f).run env w =
      match p.run env w with
      | (.ok a, w1) => (f a).run env w1
      | (.error e, w1) => (.error e, w1) := by
  induction p generalizing w with
  | ret a => simp [Prog.bind, Prog.run]
  | throw e => simp [Prog.bind, Prog.run]
  | op o k ih => simp [Prog.bind, Prog.run, ih]

/-- Running `try / catch`: the handler runs in the world the body left when it threw. -/
theorem Prog.run_tryCatch {α : Type} (env : Env) (p : Prog α) (h : String → Prog α)
    (w : World) :
    (p.tryCatch h).run env w =
      match p.run env w with
      | (.ok a, w1) => (.ok a, w1)
      | (.error e, w1) => (h e).run env w1 := by
  induction p generalizing w with
  | ret a => simp [Prog.tryCatch, Prog.run]
  | throw e => simp [Prog.tryCatch, Prog.run]
  | op o k ih => simp [Prog.tryCatch, Prog.run, ih]

/-- A call that is resumed whenever it is suspended finishes, with the result and the world
that `Prog.run` computes. -/
theorem Prog.drive_eq_run {α : Type} (env : Env) (p : Prog α) (w : World) :
    ∃ n, ∀ m, n ≤ m → Prog.drive env (m + 1) p w = some (p.run env w) := by
  induction p generalizing w with
  | ret a => exact ⟨0, fun m _ => by simp [Prog.drive, Prog.advance, Prog.run]⟩
  | throw e => exact ⟨0, fun m _ => by simp [Prog.drive, Prog.advance, Prog.run]⟩
  | op o k ih =>
    obtain ⟨n, hn⟩ := ih (w.perform env o).1 (w.perform env o).2
    refine ⟨n + 1, fun m hm => ?_⟩
    cases hsusp : o.suspends
    · have h := hn m (by omega)
      simp only [Prog.drive, Prog.advance, hsusp, Prog.run] at h ⊢
      simpa using h
    · obtain ⟨m', rfl⟩ : ∃ m', m = m' + 1 := ⟨m - 1, by omega⟩
      have h := hn m' (by omega)
      simp [Prog.drive, Prog.advance, hsusp, Prog.run] at h ⊢
      exact h

/-! ## C1: triggers while a run is in flight -/

/-- C1 (as stated, refuted): with a first run suspended in its upload, a second
`CAPTURE_SCREEN` is not rejected. It becomes a second run in flight, which contacts the
Capture Service and the Analysis Client again, overwrites the Result Cache and is answered
with success, all while the first run is still waiting. -/
theorem second_trigger_runs_while_uploading :
    (uploadingState.inflight.length = 1 ∧ uploadingState.world.captures = [3] ∧
      uploadingState.world.uploads.length = 1 ∧ uploadingState.replies = [] ∧
      uploadingState.world.cache.lastScreenshot = none) ∧
    (uploadingState.receive scenarioEnv .captureScreen).inflight.length = 2 ∧
    (secondRunDone.inflight.length = 1 ∧ secondRunDone.world.captures = [3, 3] ∧
      secondRunDone.world.uploads.length = 2 ∧
      secondRunDone.world.cache.lastScreenshot = some "data:image/png;base64,AAAA" ∧
      secondRunDone.world.cache.lastAnalysisTime = some 1000 ∧
      secondRunDone.replies = [{ success := true, error := none }]) := by
  decide

/-! ## C2: a successful analysis fills the cache -/

/-- C2: in a run with autoAnalyze true where the capture yields `d` and the Analysis Client
answers with a success status and parsed body `r`, the Result Cache afterwards holds
lastScreenshot = `d`, lastAnalysis = `r` (hence every field under its `data`, `answer`
included, is present exactly when it is in `r`) and lastAnalysisTime = the clock value read
by the run. -/
theorem success_run_fills_cache (env : Env) (w : World) (tab : Tab) (others : List Tab)
    (d : String) (resp : HttpResponse) (r : Json)
    (hauto : (w.sync.get DEFAULT_SETTINGS).autoAnalyze = true)
    (htab : env.tabs w.queries = tab :: others)
    (hcap : env.capture tab.windowId = .ok d)
    (hfetch : env.fetch ((w.sync.get DEFAULT_SETTINGS).serverUrl ++ "/api/v1/analyze")
      { name := "image", blob := dataUrlToBlob d, filename := "screenshot.png" } = .ok resp)
    (hok : resp.ok = true) (hbody : resp.body = .ok r) :
    (captureAndAnalyze.run env w).2.cache.lastScreenshot = some d ∧
    (captureAndAnalyze.run env w).2.cache.lastAnalysis = some r ∧
    (captureAndAnalyze.run env w).2.cache.lastAnalysisTime = some (env.now w.clockReads) ∧
    ∀ key : String,
      ((captureAndAnalyze.run env w).2.cache.lastAnalysis.bind fun v =>
        (v.field? "data").bind fun x => x.field? key) =
      (r.field? "data").bind fun x => x.field? key := by
  cases hs : (w.sync.get DEFAULT_SETTINGS).showNotifications <;>
  cases ht : env.tabs (w.queries + 1) <;>
  simp [captureAndAnalyze, analyzeScreenshot, Prog.run, Prog.bind, Prog.tryCatch,
    World.perform, Prog.ofExcept, Prog.call, storageSyncGet, storageLocalSet,
    notificationsCreate, tabsQuery, captureVisibleTab, fetchPost, HttpResponse.json, dateNow,
    tabsSendMessage, Cache.set, hauto, htab, hcap, hfetch, hok, hbody, hs, ht]

/-- C2, witness: the end-to-end scenario, where the stored result has no `answer`. -/
theorem success_run_fills_cache_witness :
    (captureAndAnalyze.run scenarioEnv {}).2.cache.lastScreenshot
        = some "data:image/png;base64,AAAA" ∧
    (captureAndAnalyze.run scenarioEnv {}).2.cache.lastAnalysis = some scenarioResult ∧
    (captureAndAnalyze.run scenarioEnv {}).2.cache.lastAnalysisTime = some 1000 ∧
    ((captureAndAnalyze.run scenarioEnv {}).2.cache.lastAnalysis.bind fun v =>
        (v.field? "data").bind fun x => x.field? "answer") = none :=
  have h := success_run_fills_cache scenarioEnv {} { id := 7, windowId := 3 } []
    "data:image/png;base64,AAAA" { status := 200, body := .ok scenarioResult } scenarioResult
    rfl rfl rfl rfl rfl rfl
  ⟨h.1, h.2.1, h.2.2.1, (h.2.2.2 "answer").trans rfl⟩

/-! ## C3, C4: the message of an API error -/

/-- C3 (as stated, refuted): a 500 answer whose body carries the detail field `""` fails the
run, but the persisted message is the generic one, not the detail. -/
theorem empty_detail_gives_generic_message :
    (Json.obj [("detail", .str "")]).prop "detail" = .ok (some (.str "")) ∧
    (captureAndAnalyze.run
        (serverAnswers (.ok { status := 500, body := .ok (.obj [("detail", .str "")]) }))
        {}).2.cache.lastError = some "API错误: 500" ∧
    (captureAndAnalyze.run
        (serverAnswers (.ok { status := 500, body := .ok (.obj [("detail", .str "")]) }))
        {}).2.cache.lastError ≠ some "" :=
  ⟨rfl, by decide, by decide⟩

/-- C3 (amended): when the Analysis Client answers with a non-success status and a body whose
detail field is a non-empty string `d`, the run fails: nothing but the ErrorRecord is written
to the Result Cache, lastError is exactly `d`, lastErrorTime is the clock value read by the
run, and the failure notification carries `d`. -/
theorem api_error_detail_is_persisted (env : Env) (w : World) (tab : Tab) (others : List Tab)
    (img : String) (resp : HttpResponse) (body : Json) (d : String)
    (hauto : (w.sync.get DEFAULT_SETTINGS).autoAnalyze = true)
    (htab : env.tabs w.queries = tab :: others)
    (hcap : env.capture tab.windowId = .ok img)
    (hfetch : env.fetch ((w.sync.get DEFAULT_SETTINGS).serverUrl ++ "/api/v1/analyze")
      { name := "image", blob := dataUrlToBlob img, filename := "screenshot.png" } = .ok resp)
    (hok : resp.ok = false) (hbody : resp.body = .ok body)
    (hdetail : body.prop "detail" = .ok (some (.str d))) (hne : d ≠ "") :
    (captureAndAnalyze.run env w).2.cache.lastError = some d ∧
    (captureAndAnalyze.run env w).2.cache.lastErrorTime = some (env.now w.clockReads) ∧
    (captureAndAnalyze.run env w).2.cache.lastScreenshot = w.cache.lastScreenshot ∧
    (captureAndAnalyze.run env w).2.cache.lastAnalysis = w.cache.lastAnalysis ∧
    (captureAndAnalyze.run env w).2.cache.lastAnalysisTime = w.cache.lastAnalysisTime ∧
    (captureAndAnalyze.run env w).2.notifications.getLast?
      = some (basic "ScreenMind - 分析失败" ("分析失败: " ++ d)) := by
  cases hs : (w.sync.get DEFAULT_SETTINGS).showNotifications <;>
  simp [captureAndAnalyze, analyzeScreenshot, Prog.run, Prog.bind, Prog.tryCatch,
    World.perform, Prog.ofExcept, Prog.call, storageSyncGet, storageLocalSet,
    notificationsCreate, tabsQuery, captureVisibleTab, fetchPost, HttpResponse.json, dateNow,
    errorMessageOf, Json.truthy, Cache.set, hauto, htab, hcap, hfetch, hok, hbody, hdetail,
    hne, hs]

/-- C3 (amended), witness: status 500 with detail "model unavailable". -/
theorem api_error_detail_is_persisted_witness :
    (captureAndAnalyze.run
        (serverAnswers
          (.ok { status := 500, body := .ok (.obj [("detail", .str "model unavailable")]) }))
        {}).2.cache.lastError = some "model unavailable" ∧
    (captureAndAnalyze.run
        (serverAnswers
          (.ok { status := 500, body := .ok (.obj [("detail", .str "model unavailable")]) }))
        {}).2.cache.lastErrorTime = some 1000 :=
  have h := api_error_detail_is_persisted
    (serverAnswers
      (.ok { status := 500, body := .ok (.obj [("detail", .str "model unavailable")]) }))
    {} { id := 7, windowId := 3 } [] "data:image/png;base64,AAAA"
    { status := 500, body := .ok (.obj [("detail", .str "model unavailable")]) }
    (.obj [("detail", .str "model unavailable")]) "model unavailable"
    rfl rfl rfl rfl rfl rfl rfl (by decide)
  ⟨h.1, h.2.1⟩

/-- The part of C4 the code does implement: a non-success answer whose body parses to a value
other than `null` with no detail field is persisted as the generic message built from the
status code. -/
theorem api_error_without_detail_is_generic (env : Env) (w : World) (tab : Tab)
    (others : List Tab) (img : String) (resp : HttpResponse) (body : Json)
    (hauto : (w.sync.get DEFAULT_SETTINGS).autoAnalyze = true)
    (htab : env.tabs w.queries = tab :: others)
    (hcap : env.capture tab.windowId = .ok img)
    (hfetch : env.fetch ((w.sync.get DEFAULT_SETTINGS).serverUrl ++ "/api/v1/analyze")
      { name := "image", blob := dataUrlToBlob img, filename := "screenshot.png" } = .ok resp)
    (hok : resp.ok = false) (hbody : resp.body = .ok body)
    (hdetail : body.prop "detail" = .ok none) :
    (captureAndAnalyze.run env w).2.cache.lastError
      = some ("API错误: " ++ toString resp.status) ∧
    (captureAndAnalyze.run env w).2.cache.lastErrorTime = some (env.now w.clockReads) := by
  cases hs : (w.sync.get DEFAULT_SETTINGS).showNotifications <;>
  simp [captureAndAnalyze, analyzeScreenshot, Prog.run, Prog.bind, Prog.tryCatch,
    World.perform, Prog.ofExcept, Prog.call, storageSyncGet, storageLocalSet,
    notificationsCreate, tabsQuery, captureVisibleTab, fetchPost, HttpResponse.json, dateNow,
    Cache.set, hauto, htab, hcap, hfetch, hok, hbody, hdetail, hs]

/-- C4 (the code at the failing inputs): a 502 answer whose body is not JSON persists the
parser's message, and a 500 answer whose body is the JSON value `null` persists the message
of the property-read failure; neither is the generic message built from the status. -/
theorem unstructured_error_body_loses_generic_message :
    ((captureAndAnalyze.run
        (serverAnswers
          (.ok { status := 502, body := .error "Unexpected token < in JSON at position 0" }))
        {}).2.cache.lastError = some "Unexpected token < in JSON at position 0" ∧
      (captureAndAnalyze.run
        (serverAnswers
          (.ok { status := 502, body := .error "Unexpected token < in JSON at position 0" }))
        {}).2.cache.lastError ≠ some "API错误: 502") ∧
    ((captureAndAnalyze.run (serverAnswers (.ok { status := 500, body := .ok .null }))
        {}).2.cache.lastError = some "Cannot read properties of null (reading 'detail')" ∧
      (captureAndAnalyze.run (serverAnswers (.ok { status := 500, body := .ok .null }))
        {}).2.cache.lastError ≠ some "API错误: 500") := by
  decide

/-! ## C5: a stale ErrorRecord survives a successful run -/

/-- C5 (as stated, refuted): a successful run on a cache that holds the ErrorRecord of an
earlier failed run stores the new result and keeps that ErrorRecord; the `GET_LAST_RESULT`
snapshot taken afterwards still contains lastError. -/
theorem stale_error_survives_success :
    (captureAndAnalyze.run scenarioEnv afterFailure).2.cache.lastAnalysisTime = some 1000 ∧
    (captureAndAnalyze.run scenarioEnv afterFailure).2.cache.lastError
      = some "model unavailable" ∧
    (captureAndAnalyze.run scenarioEnv afterFailure).2.cache.lastErrorTime = some 900 ∧
    ((onGetLastResult.run scenarioEnv
        (captureAndAnalyze.run scenarioEnv afterFailure).2).1.toOption.bind
      fun snapshot => snapshot.lastError) = some "model unavailable" := by
  decide

/-- C5 (amended): after a successful run the Result Cache holds the new CaptureResult, and
lastError and lastErrorTime are what they were before the run; the `GET_LAST_RESULT` snapshot
taken afterwards shows the new screenshot and analysis together with the lastError that was
already stored (none only if none was stored). -/
theorem success_run_keeps_error_record (env : Env) (w : World) (tab : Tab) (others : List Tab)
    (d : String) (resp : HttpResponse) (r : Json)
    (hauto : (w.sync.get DEFAULT_SETTINGS).autoAnalyze = true)
    (htab : env.tabs w.queries = tab :: others)
    (hcap : env.capture tab.windowId = .ok d)
    (hfetch : env.fetch ((w.sync.get DEFAULT_SETTINGS).serverUrl ++ "/api/v1/analyze")
      { name := "image", blob := dataUrlToBlob d, filename := "screenshot.png" } = .ok resp)
    (hok : resp.ok = true) (hbody : resp.body = .ok r) :
    (captureAndAnalyze.run env w).2.cache =
      { lastScreenshot := some d, lastAnalysis := some r,
        lastAnalysisTime := some (env.now w.clockReads),
        lastError := w.cache.lastError, lastErrorTime := w.cache.lastErrorTime } ∧
    (onGetLastResult.run env (captureAndAnalyze.run env w).2).1.toOption =
      some { lastScreenshot := some d, lastAnalysis := some r,
             lastError := w.cache.lastError } := by
  cases hs : (w.sync.get DEFAULT_SETTINGS).showNotifications <;>
  cases ht : env.tabs (w.queries + 1) <;>
  simp [captureAndAnalyze, analyzeScreenshot, onGetLastResult, storageLocalGet, Prog.run,
    Prog.bind, Prog.tryCatch, World.perform, Prog.ofExcept, Prog.call, storageSyncGet,
    storageLocalSet, notificationsCreate, tabsQuery, captureVisibleTab, fetchPost,
    HttpResponse.json, dateNow, tabsSendMessage, Cache.set, Except.toOption, hauto, htab,
    hcap, hfetch, hok, hbody, hs, ht]

/-- C5 (amended), witness: the scenario run on the cache left by a failed run. -/
theorem success_run_keeps_error_record_witness :
    (captureAndAnalyze.run scenarioEnv afterFailure).2.cache =
      { lastScreenshot := some "data:image/png;base64,AAAA", lastAnalysis := some scenarioResult,
        lastAnalysisTime := some 1000,
        lastError := some "model unavailable", lastErrorTime := some 900 } ∧
    (onGetLastResult.run scenarioEnv
        (captureAndAnalyze.run scenarioEnv afterFailure).2).1.toOption =
      some { lastScreenshot := some "data:image/png;base64,AAAA",
             lastAnalysis := some scenarioResult, lastError := some "model unavailable" } :=
  success_run_keeps_error_record scenarioEnv afterFailure { id := 7, windowId := 3 } []
    "data:image/png;base64,AAAA" { status := 200, body := .ok scenarioResult } scenarioResult
    rfl rfl rfl rfl rfl rfl

/-! ## C6, C7: failures of the capture stage -/

/-- In every run the promise of `captureAndAnalyze` resolves: whatever fails inside is
caught by one of the two `catch` blocks, neither of which throws again. -/
theorem captureAndAnalyze_never_rejects (env : Env) (w : World) :
    (captureAndAnalyze.run env w).1 = .ok () := by
  cases hs : (w.sync.get DEFAULT_SETTINGS).showNotifications <;>
  cases ha : (w.sync.get DEFAULT_SETTINGS).autoAnalyze <;>
  simp [captureAndAnalyze, analyzeScreenshot, Prog.run, Prog.bind, Prog.tryCatch,
    World.perform, Prog.ofExcept, Prog.call, storageSyncGet, storageLocalSet,
    notificationsCreate, tabsQuery, captureVisibleTab, fetchPost, HttpResponse.json, dateNow,
    tabsSendMessage, errorMessageOf, hs, ha] <;>
  repeat' (split <;> (try simp [Prog.run, Prog.bind, Prog.tryCatch, World.perform,
    Prog.ofExcept, *]))

/-- The reply to `CAPTURE_SCREEN` is the success reply in every run. -/
theorem onCaptureScreen_always_success (env : Env) (w : World) :
    (onCaptureScreen.run env w).1 = .ok { success := true, error := none } := by
  have h := captureAndAnalyze_never_rejects env w
  rw [onCaptureScreen, Prog.run_tryCatch, Prog.bind_eq, Prog.run_bind]
  revert h
  rcases captureAndAnalyze.run env w with ⟨_ | _, w1⟩ <;> simp [Prog.run]

/-- A failure of the capture stage leaves the Result Cache as it was: with no active tab, or
with a Capture Service that fails, no key of the cache is written. -/
theorem capture_stage_failure_keeps_cache (env : Env) (w : World)
    (hfail : env.tabs w.queries = [] ∨
      ∃ tab others e, env.tabs w.queries = tab :: others ∧ env.capture tab.windowId = .error e) :
    (captureAndAnalyze.run env w).2.cache = w.cache := by
  cases hs : (w.sync.get DEFAULT_SETTINGS).showNotifications <;>
  rcases hfail with h | ⟨tab, others, e, h, hc⟩ <;>
  simp [captureAndAnalyze, Prog.run, Prog.bind, Prog.tryCatch, World.perform, Prog.ofExcept,
    Prog.call, storageSyncGet, notificationsCreate, tabsQuery, captureVisibleTab, h, hs] <;>
  simp [hc, Prog.run, Prog.bind, Prog.tryCatch, World.perform, Prog.ofExcept]

/-- C6 (the code at the failing inputs): a run with no active tab, and a run whose capture
fails, end with the failure notification but with lastError and lastErrorTime still absent,
while a failure of the analysis stage on the same cache persists both. -/
theorem capture_stage_failure_not_persisted :
    ((captureAndAnalyze.run noActiveTab {}).2.notifications.getLast?
        = some (basic "ScreenMind - 错误" "截屏失败: 无法获取当前标签页") ∧
      (captureAndAnalyze.run noActiveTab {}).2.cache.lastError = none ∧
      (captureAndAnalyze.run noActiveTab {}).2.cache.lastErrorTime = none) ∧
    ((captureAndAnalyze.run captureRefused {}).2.notifications.getLast?
        = some (basic "ScreenMind - 错误" "截屏失败: Cannot access contents of the page") ∧
      (captureAndAnalyze.run captureRefused {}).2.cache.lastError = none ∧
      (captureAndAnalyze.run captureRefused {}).2.cache.lastErrorTime = none) ∧
    ((captureAndAnalyze.run (serverAnswers (.error "Failed to fetch")) {}).2.cache.lastError
        = some "Failed to fetch" ∧
      (captureAndAnalyze.run (serverAnswers (.error "Failed to fetch")) {}).2.cache.lastErrorTime
        = some 1000) := by
  decide

/-- C7 (the code at the failing inputs): the reply to `CAPTURE_SCREEN` is the success reply
when there is no active tab, when the capture fails, when the upload fails and when the
server answers with an error. -/
theorem failed_runs_reply_success :
    (onCaptureScreen.run noActiveTab {}).1 = .ok { success := true, error := none } ∧
    (onCaptureScreen.run captureRefused {}).1 = .ok { success := true, error := none } ∧
    (onCaptureScreen.run (serverAnswers (.error "Failed to fetch")) {}).1
      = .ok { success := true, error := none } ∧
    (onCaptureScreen.run
        (serverAnswers
          (.ok { status := 500, body := .ok (.obj [("detail", .str "model unavailable")]) }))
        {}).1 = .ok { success := true, error := none } :=
  ⟨rfl, rfl, rfl, rfl⟩

/-! ## C8, C9: the autoAnalyze branch -/

/-- C8 (as stated, refuted): with autoAnalyze false, a run on a cache that holds an earlier
analysis stores the new screenshot and leaves that analysis in place; and with
showNotifications false the same run emits no notification at all. -/
theorem capture_only_run_keeps_old_analysis :
    afterAnalysis.sync.autoAnalyze = some false ∧
    ((captureAndAnalyze.run scenarioEnv afterAnalysis).2.cache.lastScreenshot
        = some "data:image/png;base64,AAAA" ∧
      (captureAndAnalyze.run scenarioEnv afterAnalysis).2.cache.lastAnalysisTime = some 900 ∧
      (captureAndAnalyze.run scenarioEnv afterAnalysis).2.cache.lastAnalysis.isSome = true) ∧
    (captureAndAnalyze.run scenarioEnv
      { sync := { autoAnalyze := some false, showNotifications := some false } }).2.notifications
      = [] := by
  decide

/-- C8 (amended): after a run with autoAnalyze false in which the Capture Service returns
`d`, lastScreenshot is `d` and every other key of the Result Cache is what it was before the
run (lastAnalysis is absent exactly when it was absent before); the Analysis Client is not
contacted; and the run emits the "capturing" and "capture complete" notifications when
showNotifications is true and no notification otherwise. -/
theorem capture_only_run_stores_screenshot (env : Env) (w : World) (tab : Tab)
    (others : List Tab) (d : String)
    (hauto : (w.sync.get DEFAULT_SETTINGS).autoAnalyze = false)
    (htab : env.tabs w.queries = tab :: others)
    (hcap : env.capture tab.windowId = .ok d) :
    (captureAndAnalyze.run env w).2.cache = { w.cache with lastScreenshot := some d } ∧
    (captureAndAnalyze.run env w).2.uploads = w.uploads ∧
    (captureAndAnalyze.run env w).2.notifications = w.notifications ++
      (if (w.sync.get DEFAULT_SETTINGS).showNotifications then
        [basic "ScreenMind" "正在截屏...", basic "ScreenMind" "截屏完成！点击扩展图标查看结果。"]
      else []) := by
  cases hs : (w.sync.get DEFAULT_SETTINGS).showNotifications <;>
  simp [captureAndAnalyze, Prog.run, Prog.bind, Prog.tryCatch, World.perform, Prog.ofExcept,
    Prog.call, storageSyncGet, storageLocalSet, notificationsCreate, tabsQuery,
    captureVisibleTab, Cache.set, hauto, htab, hcap, hs]

/-- C8 (amended), witness: the scenario platform with autoAnalyze stored as false. -/
theorem capture_only_run_stores_screenshot_witness :
    (captureAndAnalyze.run scenarioEnv { sync := { autoAnalyze := some false } }).2.cache
      = { lastScreenshot := some "data:image/png;base64,AAAA" } ∧
    (captureAndAnalyze.run scenarioEnv { sync := { autoAnalyze := some false } }).2.uploads
      = [] ∧
    (captureAndAnalyze.run scenarioEnv { sync := { autoAnalyze := some false } }).2.notifications
      = [basic "ScreenMind" "正在截屏...", basic "ScreenMind" "截屏完成！点击扩展图标查看结果。"] :=
  capture_only_run_stores_screenshot scenarioEnv { sync := { autoAnalyze := some false } }
    { id := 7, windowId := 3 } [] "data:image/png;base64,AAAA" rfl rfl rfl

/-- C9: in every run whose capture succeeds with image `d`, the Analysis Client is contacted
exactly when the autoAnalyze value in the Settings Store at the start of the run is true, an
absent key counting as true; the request goes to the analyze endpoint of the serverUrl held
in the same store state (default `http://localhost:8000`) and carries `d`. Nothing else of
the starting world, such as what earlier runs left, enters the decision. -/
theorem analysis_contacted_iff_autoAnalyze (env : Env) (w : World) (tab : Tab)
    (others : List Tab) (d : String)
    (htab : env.tabs w.queries = tab :: others)
    (hcap : env.capture tab.windowId = .ok d) :
    (captureAndAnalyze.run env w).2.uploads =
      (if w.sync.autoAnalyze.getD true = true then
        w.uploads ++ [(w.sync.serverUrl.getD "http://localhost:8000" ++ "/api/v1/analyze",
          { name := "image", blob := dataUrlToBlob d, filename := "screenshot.png" })]
      else w.uploads) ∧
    ((captureAndAnalyze.run env w).2.uploads ≠ w.uploads ↔ w.sync.autoAnalyze.getD true = true) := by
  have key : (captureAndAnalyze.run env w).2.uploads =
      (if w.sync.autoAnalyze.getD true = true then
        w.uploads ++ [(w.sync.serverUrl.getD "http://localhost:8000" ++ "/api/v1/analyze",
          { name := "image", blob := dataUrlToBlob d, filename := "screenshot.png" })]
      else w.uploads) := by
    cases ha : w.sync.autoAnalyze.getD true
    · cases hs : w.sync.showNotifications.getD true <;>
      simp [captureAndAnalyze, Prog.run, Prog.bind, Prog.tryCatch, World.perform,
        Prog.ofExcept, Prog.call, storageSyncGet, storageLocalSet, notificationsCreate,
        tabsQuery, captureVisibleTab, SyncStore.get, DEFAULT_SETTINGS, htab, hcap, ha, hs]
    · cases hs : w.sync.showNotifications.getD true <;>
      simp [captureAndAnalyze, analyzeScreenshot, Prog.run, Prog.bind, Prog.tryCatch,
        World.perform, Prog.ofExcept, Prog.call, storageSyncGet, storageLocalSet,
        notificationsCreate, tabsQuery, captureVisibleTab, fetchPost, HttpResponse.json,
        dateNow, tabsSendMessage, errorMessageOf, SyncStore.get, DEFAULT_SETTINGS, htab, hcap,
        ha, hs] <;>
      repeat' (split <;> (try simp [Prog.run, Prog.bind, Prog.tryCatch, World.perform,
        Prog.ofExcept, *]))
  refine ⟨key, ?_⟩
  rw [key]
  cases ha : w.sync.autoAnalyze.getD true <;> simp

/-- C9, witness: on the same platform, the upload happens from a store without the key and
does not happen from a store holding false, whatever earlier runs left in the cache. -/
theorem analysis_contacted_iff_autoAnalyze_witness :
    ((captureAndAnalyze.run scenarioEnv afterFailure).2.uploads =
        [("http://localhost:8000/api/v1/analyze",
          { name := "image", blob := dataUrlToBlob "data:image/png;base64,AAAA",
            filename := "screenshot.png" })] ∧
      ((captureAndAnalyze.run scenarioEnv afterFailure).2.uploads ≠ afterFailure.uploads ↔
        afterFailure.sync.autoAnalyze.getD true = true)) ∧
    (captureAndAnalyze.run scenarioEnv afterAnalysis).2.uploads = [] :=
  ⟨analysis_contacted_iff_autoAnalyze scenarioEnv afterFailure { id := 7, windowId := 3 } []
      "data:image/png;base64,AAAA" rfl rfl,
    (analysis_contacted_iff_autoAnalyze scenarioEnv afterAnalysis { id := 7, windowId := 3 } []
      "data:image/png;base64,AAAA" rfl rfl).1⟩

/-! ## C10: delivery of the push -/

/-- C10: in a run whose analysis succeeded, the reply to the caller, the Result Cache and the
notifications are the same whatever the fate of the `ANALYSIS_COMPLETE` push: replacing the
delivery behaviour of the platform by any other changes none of them, and in both cases the
reply is the success reply and lastError and lastErrorTime are what they were before the
run. -/
theorem push_delivery_not_observed (env : Env) (w : World) (tab : Tab) (others : List Tab)
    (d : String) (resp : HttpResponse) (r : Json) (delivers : Nat → Message → Bool)
    (hauto : (w.sync.get DEFAULT_SETTINGS).autoAnalyze = true)
    (htab : env.tabs w.queries = tab :: others)
    (hcap : env.capture tab.windowId = .ok d)
    (hfetch : env.fetch ((w.sync.get DEFAULT_SETTINGS).serverUrl ++ "/api/v1/analyze")
      { name := "image", blob := dataUrlToBlob d, filename := "screenshot.png" } = .ok resp)
    (hok : resp.ok = true) (hbody : resp.body = .ok r) :
    (onCaptureScreen.run { env with delivers := delivers } w).1 = (onCaptureScreen.run env w).1 ∧
    (onCaptureScreen.run { env with delivers := delivers } w).2.cache
      = (onCaptureScreen.run env w).2.cache ∧
    (onCaptureScreen.run { env with delivers := delivers } w).2.notifications
      = (onCaptureScreen.run env w).2.notifications ∧
    (onCaptureScreen.run env w).1 = .ok { success := true, error := none } ∧
    (onCaptureScreen.run env w).2.cache.lastError = w.cache.lastError ∧
    (onCaptureScreen.run env w).2.cache.lastErrorTime = w.cache.lastErrorTime := by
  cases hs : (w.sync.get DEFAULT_SETTINGS).showNotifications <;>
  cases ht : env.tabs (w.queries + 1) <;>
  simp [onCaptureScreen, captureAndAnalyze, analyzeScreenshot, Prog.run, Prog.bind,
    Prog.tryCatch, World.perform, Prog.ofExcept, Prog.call, storageSyncGet, storageLocalSet,
    notificationsCreate, tabsQuery, captureVisibleTab, fetchPost, HttpResponse.json, dateNow,
    tabsSendMessage, Cache.set, hauto, htab, hcap, hfetch, hok, hbody, hs, ht]

/-- C10, witness: the scenario platform, where the push is attempted and fails, against the
same platform with a listener in the tab. -/
theorem push_delivery_not_observed_witness :
    ((onCaptureScreen.run scenarioEnv {}).2.pushes.map fun p => p.delivered) = [false] ∧
    ((onCaptureScreen.run { scenarioEnv with delivers := fun _ _ => true } {}).2.pushes.map
      fun p => p.delivered) = [true] ∧
    (onCaptureScreen.run { scenarioEnv with delivers := fun _ _ => true } {}).1
      = (onCaptureScreen.run scenarioEnv {}).1 ∧
    (onCaptureScreen.run { scenarioEnv with delivers := fun _ _ => true } {}).2.cache
      = (onCaptureScreen.run scenarioEnv {}).2.cache ∧
    (onCaptureScreen.run { scenarioEnv with delivers := fun _ _ => true } {}).2.notifications
      = (onCaptureScreen.run scenarioEnv {}).2.notifications ∧
    (onCaptureScreen.run scenarioEnv {}).2.cache.lastError = none :=
  have h := push_delivery_not_observed scenarioEnv {} { id := 7, windowId := 3 } []
    "data:image/png;base64,AAAA" { status := 200, body := .ok scenarioResult } scenarioResult
    (fun _ _ => true) rfl rfl rfl rfl rfl rfl
  ⟨rfl, rfl, h.1, h.2.1, h.2.2.1, h.2.2.2.2.1⟩

/-! ## C11: the analysis timeout -/

/-- A change of the world that every platform call commutes with is carried through a whole
call unchanged. -/
theorem Prog.run_frame {α : Type} (env : Env) (f : World → World)
    (hf : ∀ w o, (f w).perform env o = ((w.perform env o).1, f (w.perform env o).2))
    (p : Prog α) (w : World) :
    p.run env (f w) = ((p.run env w).1, f (p.run env w).2) := by
  induction p generalizing w with
  | ret a => simp [Prog.run]
  | throw e => simp [Prog.run]
  | op o k ih => simp [Prog.run, hf, ih]

/-- No platform call reads or writes the `analysisTimeout` key. -/
theorem World.perform_withTimeout (env : Env) (timeout : Option Int) (w : World) (o : Op) :
    (w.withTimeout timeout).perform env o =
      ((w.perform env o).1, (w.perform env o).2.withTimeout timeout) := by
  cases o <;> rfl

/-- C11 (the code at the failing input): with the timeout set to 10 seconds and an Analysis
Client that answers after 3600 seconds, the run does not fail: it stores the analysis, writes
no ErrorRecord and ends with the completion notification. -/
theorem slow_analysis_is_not_failed :
    shortTimeout.sync.timeoutInForce = 10 ∧
    shortTimeout.sync.timeoutInForce < slowAnalysis.analysisSeconds ∧
    (onCaptureScreen.run slowAnalysis.toEnv shortTimeout).2.cache.lastAnalysisTime
      = some 1000 ∧
    (onCaptureScreen.run slowAnalysis.toEnv shortTimeout).2.cache.lastAnalysis.isSome = true ∧
    (onCaptureScreen.run slowAnalysis.toEnv shortTimeout).2.cache.lastError = none ∧
    (onCaptureScreen.run slowAnalysis.toEnv shortTimeout).2.notifications.getLast?
      = some (basic "ScreenMind - 分析完成" "点击扩展图标查看详细结果！") := by
  decide

/-- The pipeline applies no timeout: for every platform and world, the reply, the Result
Cache, the notifications, the uploads and the pushes of a run are the same whatever value is
stored under `analysisTimeout` and however long the Analysis Client takes. The run ends as
the answer of the client dictates. -/
theorem run_ignores_analysis_timeout (tenv : TimedEnv) (w : World) (timeout : Option Int)
    (seconds : Nat) :
    (onCaptureScreen.run { tenv with analysisSeconds := seconds }.toEnv
        (w.withTimeout timeout)).1 = (onCaptureScreen.run tenv.toEnv w).1 ∧
    (onCaptureScreen.run { tenv with analysisSeconds := seconds }.toEnv
        (w.withTimeout timeout)).2.cache = (onCaptureScreen.run tenv.toEnv w).2.cache ∧
    (onCaptureScreen.run { tenv with analysisSeconds := seconds }.toEnv
        (w.withTimeout timeout)).2.notifications
      = (onCaptureScreen.run tenv.toEnv w).2.notifications ∧
    (onCaptureScreen.run { tenv with analysisSeconds := seconds }.toEnv
        (w.withTimeout timeout)).2.uploads = (onCaptureScreen.run tenv.toEnv w).2.uploads ∧
    (onCaptureScreen.run { tenv with analysisSeconds := seconds }.toEnv
        (w.withTimeout timeout)).2.pushes = (onCaptureScreen.run tenv.toEnv w).2.pushes := by
  have henv : { tenv with analysisSeconds := seconds }.toEnv = tenv.toEnv := rfl
  have h := Prog.run_frame tenv.toEnv (fun w => w.withTimeout timeout)
    (World.perform_withTimeout tenv.toEnv timeout) onCaptureScreen w
  simp only at h
  rw [henv, h]
  exact ⟨rfl, rfl, rfl, rfl, rfl⟩

/-! ## C12: failure notifications -/

/-- C12 (as stated, refuted): with showNotifications false a run without active tab, and a
run whose upload fails, each emit exactly one notification, the failure notification. -/
theorem failure_notified_with_notifications_off :
    (notificationsOff.sync.get DEFAULT_SETTINGS).showNotifications = false ∧
    (captureAndAnalyze.run noActiveTab notificationsOff).2.notifications
      = [basic "ScreenMind - 错误" "截屏失败: 无法获取当前标签页"] ∧
    (captureAndAnalyze.run (serverAnswers (.error "Failed to fetch"))
        notificationsOff).2.notifications
      = [basic "ScreenMind - 分析失败" "分析失败: Failed to fetch"] := by
  decide

set_option maxHeartbeats 1600000

/-- C12 (amended): failure notifications are not gated. For every failed run, in the capture
stage or in the analysis stage and whatever showNotifications is, the last notification
emitted is the failure notification of that stage carrying the error message. -/
theorem failure_always_notified (env : Env) (w : World) (stage : Stage) (message : String)
    (hfail : RunFails env w stage message) :
    (captureAndAnalyze.run env w).2.notifications.getLast?
      = some (failureNotification stage message) := by
  cases hfail with
  | noActiveTab ht =>
    cases hs : (w.sync.get DEFAULT_SETTINGS).showNotifications <;>
    simp [captureAndAnalyze, analyzeScreenshot, Prog.run, Prog.bind, Prog.tryCatch,
      World.perform, Prog.ofExcept, Prog.call, storageSyncGet, storageLocalSet,
      notificationsCreate, tabsQuery, captureVisibleTab, fetchPost, HttpResponse.json, dateNow,
      errorMessageOf, Json.truthy, failureNotification, ht, hs]
  | captureFailed tab e ht hc =>
    cases hs : (w.sync.get DEFAULT_SETTINGS).showNotifications <;>
    simp [captureAndAnalyze, analyzeScreenshot, Prog.run, Prog.bind, Prog.tryCatch,
      World.perform, Prog.ofExcept, Prog.call, storageSyncGet, storageLocalSet,
      notificationsCreate, tabsQuery, captureVisibleTab, fetchPost, HttpResponse.json, dateNow,
      errorMessageOf, Json.truthy, failureNotification, ht, hc, hs]
  | uploadFailed tab d e hu =>
    obtain ⟨ht, hc, ha, hf⟩ := hu
    cases hs : (w.sync.get DEFAULT_SETTINGS).showNotifications <;>
    simp [captureAndAnalyze, analyzeScreenshot, Prog.run, Prog.bind, Prog.tryCatch,
      World.perform, Prog.ofExcept, Prog.call, storageSyncGet, storageLocalSet,
      notificationsCreate, tabsQuery, captureVisibleTab, fetchPost, HttpResponse.json, dateNow,
      errorMessageOf, Json.truthy, failureNotification, ht, hc, ha, hf, hs]
  | bodyUnreadable tab d resp e hu hbody =>
    obtain ⟨ht, hc, ha, hf⟩ := hu
    cases hs : (w.sync.get DEFAULT_SETTINGS).showNotifications <;>
    cases hok : resp.ok <;>
    simp [captureAndAnalyze, analyzeScreenshot, Prog.run, Prog.bind, Prog.tryCatch,
      World.perform, Prog.ofExcept, Prog.call, storageSyncGet, storageLocalSet,
      notificationsCreate, tabsQuery, captureVisibleTab, fetchPost, HttpResponse.json, dateNow,
      errorMessageOf, Json.truthy, failureNotification, ht, hc, ha, hf, hbody, hok, hs]
  | detailUnreadable tab d resp body e hu hok hbody hdetail =>
    obtain ⟨ht, hc, ha, hf⟩ := hu
    cases hs : (w.sync.get DEFAULT_SETTINGS).showNotifications <;>
    simp [captureAndAnalyze, analyzeScreenshot, Prog.run, Prog.bind, Prog.tryCatch,
      World.perform, Prog.ofExcept, Prog.call, storageSyncGet, storageLocalSet,
      notificationsCreate, tabsQuery, captureVisibleTab, fetchPost, HttpResponse.json, dateNow,
      errorMessageOf, Json.truthy, failureNotification, ht, hc, ha, hf, hok, hbody, hdetail, hs]
  | detailText tab d resp body detail hu hok hbody hdetail hne =>
    obtain ⟨ht, hc, ha, hf⟩ := hu
    cases hs : (w.sync.get DEFAULT_SETTINGS).showNotifications <;>
    simp [captureAndAnalyze, analyzeScreenshot, Prog.run, Prog.bind, Prog.tryCatch,
      World.perform, Prog.ofExcept, Prog.call, storageSyncGet, storageLocalSet,
      notificationsCreate, tabsQuery, captureVisibleTab, fetchPost, HttpResponse.json, dateNow,
      errorMessageOf, Json.truthy, failureNotification, ht, hc, ha, hf, hok, hbody, hdetail, hne, hs]
  | detailValue tab d resp body detail hu hok hbody hdetail htruthy hne =>
    obtain ⟨ht, hc, ha, hf⟩ := hu
    cases detail with
    | str s => exact absurd rfl (hne s)
    | null => simp [Json.truthy] at htruthy
    | _ =>
      cases hs : (w.sync.get DEFAULT_SETTINGS).showNotifications <;>
      simp [captureAndAnalyze, analyzeScreenshot, Prog.run, Prog.bind, Prog.tryCatch,
        World.perform, Prog.ofExcept, Prog.call, storageSyncGet, storageLocalSet,
        notificationsCreate, tabsQuery, captureVisibleTab, fetchPost, HttpResponse.json,
        dateNow, errorMessageOf, failureNotification, ht, hc, ha, hf, hok, hbody, hdetail,
        htruthy, hs]
  | detailFalsy tab d resp body detail hu hok hbody hdetail hfalsy =>
    obtain ⟨ht, hc, ha, hf⟩ := hu
    cases hs : (w.sync.get DEFAULT_SETTINGS).showNotifications <;>
    simp [captureAndAnalyze, analyzeScreenshot, Prog.run, Prog.bind, Prog.tryCatch,
      World.perform, Prog.ofExcept, Prog.call, storageSyncGet, storageLocalSet,
      notificationsCreate, tabsQuery, captureVisibleTab, fetchPost, HttpResponse.json, dateNow,
      errorMessageOf, failureNotification, ht, hc, ha, hf, hok, hbody, hdetail, hfalsy, hs]
  | detailAbsent tab d resp body hu hok hbody hdetail =>
    obtain ⟨ht, hc, ha, hf⟩ := hu
    cases hs : (w.sync.get DEFAULT_SETTINGS).showNotifications <;>
    simp [captureAndAnalyze, analyzeScreenshot, Prog.run, Prog.bind, Prog.tryCatch,
      World.perform, Prog.ofExcept, Prog.call, storageSyncGet, storageLocalSet,
      notificationsCreate, tabsQuery, captureVisibleTab, fetchPost, HttpResponse.json, dateNow,
      errorMessageOf, Json.truthy, failureNotification, ht, hc, ha, hf, hok, hbody, hdetail, hs]
/-- C12 (amended), witness: with showNotifications false, a failed upload is notified. -/
theorem failure_always_notified_witness :
    (notificationsOff.sync.get DEFAULT_SETTINGS).showNotifications = false ∧
    (captureAndAnalyze.run (serverAnswers (.error "Failed to fetch"))
        notificationsOff).2.notifications.getLast?
      = some (basic "ScreenMind - 分析失败" "分析失败: Failed to fetch") :=
  ⟨rfl, failure_always_notified (serverAnswers (.error "Failed to fetch")) notificationsOff
    .analysis "Failed to fetch"
    (.uploadFailed { id := 7, windowId := 3 } "data:image/png;base64,AAAA" "Failed to fetch"
      ⟨rfl, rfl, rfl, rfl⟩)⟩

/-- The failures listed by `RunFails` are all there are: a run that is not one of them emits
the progress notifications only, and only when showNotifications is true. -/
theorem run_fails_or_completes (env : Env) (w : World) :
    (∃ stage message, RunFails env w stage message) ∨
    (captureAndAnalyze.run env w).2.notifications = w.notifications ++
      (if (w.sync.get DEFAULT_SETTINGS).showNotifications then
        (if (w.sync.get DEFAULT_SETTINGS).autoAnalyze then
          [basic "ScreenMind" "正在截屏...", basic "ScreenMind" "正在AI分析中...",
           basic "ScreenMind - 分析完成" "点击扩展图标查看详细结果！"]
         else
          [basic "ScreenMind" "正在截屏...", basic "ScreenMind" "截屏完成！点击扩展图标查看结果。"])
       else []) := by
  cases ht : (env.tabs w.queries).head? with
  | none => exact .inl ⟨_, _, .noActiveTab ht⟩
  | some tab =>
    cases hc : env.capture tab.windowId with
    | error e => exact .inl ⟨_, _, .captureFailed tab e ht hc⟩
    | ok d =>
      cases ha : (w.sync.get DEFAULT_SETTINGS).autoAnalyze with
      | false =>
        right
        cases hs : (w.sync.get DEFAULT_SETTINGS).showNotifications <;>
        simp [captureAndAnalyze, Prog.run, Prog.bind, Prog.tryCatch, World.perform,
          Prog.ofExcept, Prog.call, storageSyncGet, storageLocalSet, notificationsCreate,
          tabsQuery, captureVisibleTab, ht, hc, ha, hs]
      | true =>
        cases hf : env.fetch ((w.sync.get DEFAULT_SETTINGS).serverUrl ++ "/api/v1/analyze")
          { name := "image", blob := dataUrlToBlob d, filename := "screenshot.png" } with
        | error e => exact .inl ⟨_, _, .uploadFailed tab d e ⟨ht, hc, ha, hf⟩⟩
        | ok resp =>
          have hu : Uploads env w tab d (.ok resp) := ⟨ht, hc, ha, hf⟩
          cases hbody : resp.body with
          | error e => exact .inl ⟨_, _, .bodyUnreadable tab d resp e hu hbody⟩
          | ok body =>
            cases hok : resp.ok with
            | true =>
              right
              cases hs : (w.sync.get DEFAULT_SETTINGS).showNotifications <;>
              cases ht2 : env.tabs (w.queries + 1) <;>
              simp [captureAndAnalyze, analyzeScreenshot, Prog.run, Prog.bind, Prog.tryCatch,
                World.perform, Prog.ofExcept, Prog.call, storageSyncGet, storageLocalSet,
                notificationsCreate, tabsQuery, captureVisibleTab, fetchPost,
                HttpResponse.json, dateNow, tabsSendMessage, ht, hc, ha, hf, hok, hbody, hs,
                ht2]
            | false =>
              left
              cases hdetail : body.prop "detail" with
              | error e => exact ⟨_, _, .detailUnreadable tab d resp body e hu hok hbody hdetail⟩
              | ok found =>
                cases found with
                | none => exact ⟨_, _, .detailAbsent tab d resp body hu hok hbody hdetail⟩
                | some detail =>
                  cases htruthy : detail.truthy with
                  | false =>
                    exact ⟨_, _, .detailFalsy tab d resp body detail hu hok hbody hdetail htruthy⟩
                  | true =>
                    by_cases hstr : ∃ s, detail = .str s
                    · obtain ⟨s, rfl⟩ := hstr
                      have hne : s ≠ "" := by simpa [Json.truthy] using htruthy
                      exact ⟨_, _, .detailText tab d resp body s hu hok hbody hdetail hne⟩
                    · exact ⟨_, _, .detailValue tab d resp body detail hu hok hbody hdetail
                        htruthy (fun s h => hstr ⟨s, h⟩)⟩

/-! ## C13: validation of a settings write -/

/-- C13 (as stated, refuted): a submission whose server URL is blank, and so does not parse,
whose timeout is 0 and whose history cap is not a number is not rejected: the defaults are
put in their place and the store is written. -/
theorem blank_fields_are_saved_as_defaults :
    isValidUrl exampleParse (jsTrim blankForm.serverUrlInput) = false ∧
    blankForm.analysisTimeoutInput = some 0 ∧
    (Options.saveSettings exampleParse blankForm savedStore).1.errorMessage = none ∧
    (Options.saveSettings exampleParse blankForm savedStore).1.successMessage
      = some "设置已保存成功！" ∧
    (Options.saveSettings exampleParse blankForm savedStore).2.serverUrl
      = some "http://localhost:8000" ∧
    (Options.saveSettings exampleParse blankForm savedStore).2.analysisTimeout = some 30 ∧
    (Options.saveSettings exampleParse blankForm savedStore).2.maxHistoryItems = some 100 ∧
    (Options.saveSettings exampleParse blankForm savedStore).2.autoAnalyze = some true := by
  decide

/-- C13 (amended): `saveSettings` validates the settings object it builds from the form (the
trimmed server URL, or the default when it is blank; each number, or its default when the
field holds no number). When that object has a server URL that does not parse as an http or
https URL, or a timeout outside [10, 120], or a history cap outside [10, 1000], nothing is
written, the store is unchanged, and the error shown names the first violated constraint in
the order URL, timeout, history cap. -/
theorem invalid_settings_are_rejected (parse : String → Option String) (page : Options.Page)
    (store : SyncStore)
    (hbad : isValidUrl parse page.settings.serverUrl = false ∨
      (page.settings.analysisTimeout < 10 ∨ 120 < page.settings.analysisTimeout) ∨
      (page.settings.maxHistoryItems < 10 ∨ 1000 < page.settings.maxHistoryItems)) :
    (Options.saveSettings parse page store).2 = store ∧
    (Options.saveSettings parse page store).1 = Options.showError page ("保存设置失败: " ++
      (if isValidUrl parse page.settings.serverUrl = false then "请输入有效的服务器地址"
       else if page.settings.analysisTimeout < 10 ∨ 120 < page.settings.analysisTimeout then
         "分析超时时间必须在10-120秒之间"
       else "最大历史记录数必须在10-1000之间")) := by
  by_cases hu : isValidUrl parse page.settings.serverUrl = false
  · simp [Options.saveSettings, Options.trySave, hu, throw, throwThe, MonadExceptOf.throw,
      bind, Except.bind]
  · have hu1 : isValidUrl parse page.settings.serverUrl = true := by simpa using hu
    by_cases ht : page.settings.analysisTimeout < 10 ∨ 120 < page.settings.analysisTimeout
    · simp [Options.saveSettings, Options.trySave, hu1, ht, throw, throwThe,
        MonadExceptOf.throw, bind, Except.bind, pure, Except.pure]
    · have hm : page.settings.maxHistoryItems < 10 ∨ 1000 < page.settings.maxHistoryItems := by
        rcases hbad with h | h | h
        · exact absurd h hu
        · exact absurd h ht
        · exact h
      simp [Options.saveSettings, Options.trySave, hu1, ht, hm, throw, throwThe,
        MonadExceptOf.throw, bind, Except.bind, pure, Except.pure]

/-- C13 (amended), witness: the three submissions of the specification, each against a
store written earlier: server URL `ftp://x`, timeout 5, history cap 5000. -/
theorem invalid_settings_are_rejected_witness :
    ((Options.saveSettings exampleParse { goodForm with serverUrlInput := "ftp://x" }
        savedStore).2 = savedStore ∧
      (Options.saveSettings exampleParse { goodForm with serverUrlInput := "ftp://x" }
        savedStore).1.errorMessage = some "保存设置失败: 请输入有效的服务器地址") ∧
    ((Options.saveSettings exampleParse { goodForm with analysisTimeoutInput := some 5 }
        savedStore).2 = savedStore ∧
      (Options.saveSettings exampleParse { goodForm with analysisTimeoutInput := some 5 }
        savedStore).1.errorMessage = some "保存设置失败: 分析超时时间必须在10-120秒之间") ∧
    ((Options.saveSettings exampleParse { goodForm with maxHistoryItemsInput := some 5000 }
        savedStore).2 = savedStore ∧
      (Options.saveSettings exampleParse { goodForm with maxHistoryItemsInput := some 5000 }
        savedStore).1.errorMessage = some "保存设置失败: 最大历史记录数必须在10-1000之间") :=
  ⟨⟨(invalid_settings_are_rejected exampleParse { goodForm with serverUrlInput := "ftp://x" }
        savedStore (by decide)).1, by decide⟩,
    ⟨(invalid_settings_are_rejected exampleParse { goodForm with analysisTimeoutInput := some 5 }
        savedStore (by decide)).1, by decide⟩,
    ⟨(invalid_settings_are_rejected exampleParse
        { goodForm with maxHistoryItemsInput := some 5000 } savedStore (by decide)).1,
      by decide⟩⟩

/-! ## C14: the range invariant of the Settings Store -/

/-- A save leaves a store within the ranges when it starts from one. -/
theorem saveSettings_keeps_ranges (parse : String → Option String) (page : Options.Page)
    (s : SyncStore) (h : s.WithinRanges parse) :
    (Options.saveSettings parse page s).2.WithinRanges parse := by
  by_cases hu : isValidUrl parse page.settings.serverUrl = false
  · simpa [Options.saveSettings, Options.trySave, hu, throw, throwThe, MonadExceptOf.throw,
      bind, Except.bind] using h
  · have hu1 : isValidUrl parse page.settings.serverUrl = true := by simpa using hu
    by_cases ht : page.settings.analysisTimeout < 10 ∨ 120 < page.settings.analysisTimeout
    · simpa [Options.saveSettings, Options.trySave, hu1, ht, throw, throwThe,
        MonadExceptOf.throw, bind, Except.bind, pure, Except.pure] using h
    · by_cases hm : page.settings.maxHistoryItems < 10 ∨ 1000 < page.settings.maxHistoryItems
      · simpa [Options.saveSettings, Options.trySave, hu1, ht, hm, throw, throwThe,
          MonadExceptOf.throw, bind, Except.bind, pure, Except.pure] using h
      · have hsave : (Options.saveSettings parse page s).2 = s.setAll page.settings := by
          simp [Options.saveSettings, Options.trySave, hu1, ht, hm, throw, throwThe,
            MonadExceptOf.throw, bind, Except.bind, pure, Except.pure]
        rw [hsave]
        refine ⟨fun t e => ?_, fun m e => ?_, fun u e => ?_⟩
        · simp only [SyncStore.setAll, Option.some.injEq] at e
          omega
        · simp only [SyncStore.setAll, Option.some.injEq] at e
          omega
        · simp only [SyncStore.setAll, Option.some.injEq] at e
          rw [← e]
          exact hu1

/-- C14: every store state reachable from the empty store through the install handler,
`saveSettings`, `resetSettings` and the two toggles of the popup is within the ranges: a
stored analysis timeout is an integer in [10, 120], a stored history cap an integer in
[10, 1000], and a stored server URL parses as an http or https URL, given that the platform
parses the default URL `http://localhost:8000` as an http URL. -/
theorem reachable_store_within_ranges (parse : String → Option String)
    (hdefault : isValidUrl parse "http://localhost:8000" = true) (s : SyncStore)
    (hreach : Reachable parse s) : s.WithinRanges parse := by
  induction hreach with
  | empty => exact ⟨fun _ e => (by cases e), fun _ e => (by cases e), fun _ e => (by cases e)⟩
  | install env w _ ih =>
    obtain ⟨h1, h2, _⟩ := ih
    refine ⟨fun t e => h1 t ?_, fun m e => h2 m ?_, fun u e => ?_⟩
    · simpa [onInstalled, storageSyncSet, notificationsCreate, Prog.call, Prog.bind,
        Prog.run, World.perform, SyncStore.set] using e
    · simpa [onInstalled, storageSyncSet, notificationsCreate, Prog.call, Prog.bind,
        Prog.run, World.perform, SyncStore.set] using e
    · have hu : u = "http://localhost:8000" := by
        simpa [onInstalled, storageSyncSet, notificationsCreate, Prog.call, Prog.bind,
          Prog.run, World.perform, SyncStore.set, DEFAULT_SETTINGS, eq_comm] using e
      rw [hu]
      exact hdefault
  | save page s _ ih => exact saveSettings_keeps_ranges parse page s ih
  | reset page s _ _ =>
    refine ⟨fun t e => ?_, fun m e => ?_, fun u e => ?_⟩
    · simp [Options.resetSettings, SyncStore.setAll, defaultSettings] at e
      omega
    · simp [Options.resetSettings, SyncStore.setAll, defaultSettings] at e
      omega
    · have hu : u = "http://localhost:8000" := by
        simpa [Options.resetSettings, SyncStore.setAll, defaultSettings, eq_comm] using e
      rw [hu]
      exact hdefault
  | toggleAutoAnalyze page s _ ih => exact ih
  | toggleNotifications page s _ ih => exact ih

/-- C14, witness: the store after installation, a save of `goodForm`, a click on the
auto-analyze toggle of the popup and a rejected save. -/
theorem reachable_store_within_ranges_witness :
    SyncStore.WithinRanges exampleParse
      (Options.saveSettings exampleParse { goodForm with analysisTimeoutInput := some 5 }
        (Popup.onAutoAnalyzeToggleClick {}
          (Options.saveSettings exampleParse goodForm
            (onInstalled.run scenarioEnv {}).2.sync).2).2).2 :=
  reachable_store_within_ranges exampleParse (by decide) _
    (.save _ _ (.toggleAutoAnalyze _ _ (.save _ _ (.install scenarioEnv {} .empty))))

/-! ## C15, C16, C17: reading the Settings Store back -/

/-- A form that shows a settings value with a trimmed, non-empty server URL and non-zero
numbers is read by `saveSettings` as that value. -/
theorem settings_of_filled_form (v : OptionsSettings) (page : Options.Page)
    (hurl : page.serverUrlInput = v.serverUrl) (htrim : jsTrim v.serverUrl = v.serverUrl)
    (hne : v.serverUrl ≠ "")
    (hauto : page.autoAnalyzeToggle = v.autoAnalyze)
    (hnotify : page.notificationToggle = v.showNotifications)
    (hhistory : page.saveHistoryToggle = v.saveHistory)
    (htimeout : page.analysisTimeoutInput = some v.analysisTimeout)
    (hcap : page.maxHistoryItemsInput = some v.maxHistoryItems)
    (ht0 : v.analysisTimeout ≠ 0) (hc0 : v.maxHistoryItems ≠ 0) :
    page.settings = v := by
  cases v
  simp_all [Options.Page.settings, textOr, parsedOr]

/-- C15: for every settings object that `saveSettings` accepts (server URL parsing as http
or https, timeout in [10, 120], history cap in [10, 1000], any three booleans) and every
prior store, the save writes exactly that object, a read of the store returns exactly its
six values, and `loadSettings` after the save shows exactly these six values in the form. -/
theorem save_then_load_round_trip (parse : String → Option String) (page : Options.Page)
    (store : SyncStore)
    (hurl : isValidUrl parse page.settings.serverUrl = true)
    (htimeout : 10 ≤ page.settings.analysisTimeout ∧ page.settings.analysisTimeout ≤ 120)
    (hcap : 10 ≤ page.settings.maxHistoryItems ∧ page.settings.maxHistoryItems ≤ 1000) :
    (Options.saveSettings parse page store).2 = page.settings.asObject ∧
    (Options.saveSettings parse page store).2.getAll defaultSettings = page.settings ∧
    (Options.loadSettings (Options.saveSettings parse page store).2
        (Options.saveSettings parse page store).1) =
      { serverUrlInput := page.settings.serverUrl
        autoAnalyzeToggle := page.settings.autoAnalyze
        notificationToggle := page.settings.showNotifications
        saveHistoryToggle := page.settings.saveHistory
        analysisTimeoutInput := some page.settings.analysisTimeout
        maxHistoryItemsInput := some page.settings.maxHistoryItems
        successMessage := some "设置已保存成功！"
        errorMessage := none } := by
  have ht : ¬ (page.settings.analysisTimeout < 10 ∨ 120 < page.settings.analysisTimeout) := by
    omega
  have hc : ¬ (page.settings.maxHistoryItems < 10 ∨ 1000 < page.settings.maxHistoryItems) := by
    omega
  have hsave : Options.saveSettings parse page store
      = (Options.showSuccess page "设置已保存成功！", store.setAll page.settings) := by
    simp [Options.saveSettings, Options.trySave, hurl, ht, hc, throw, throwThe,
      MonadExceptOf.throw, bind, Except.bind, pure, Except.pure]
  rw [hsave]
  refine ⟨rfl, rfl, rfl⟩

/-- C15, witness: `goodForm` saved over a store that holds other values. -/
theorem save_then_load_round_trip_witness :
    (Options.saveSettings exampleParse goodForm
        { serverUrl := some "http://localhost:8000", analysisTimeout := some 30 }).2
      = savedStore ∧
    (Options.loadSettings
        (Options.saveSettings exampleParse goodForm
          { serverUrl := some "http://localhost:8000", analysisTimeout := some 30 }).2
        (Options.saveSettings exampleParse goodForm
          { serverUrl := some "http://localhost:8000", analysisTimeout := some 30 }).1) =
      { goodForm with successMessage := some "设置已保存成功！" } :=
  have h := save_then_load_round_trip exampleParse goodForm
    { serverUrl := some "http://localhost:8000", analysisTimeout := some 30 }
    (by decide) (by decide) (by decide)
  ⟨h.1, h.2.2⟩

/-- No platform call reads or writes the keys saveHistory, analysisTimeout and
maxHistoryItems of the Settings Store. -/
theorem World.perform_unread_keys (env : Env) (history : Option Bool)
    (timeout cap : Option Int) (w : World) (o : Op) :
    ({ w with sync := { w.sync with saveHistory := history, analysisTimeout := timeout,
                                    maxHistoryItems := cap } } : World).perform env o =
      ((w.perform env o).1,
        { (w.perform env o).2 with
          sync := { (w.perform env o).2.sync with saveHistory := history,
                                                  analysisTimeout := timeout,
                                                  maxHistoryItems := cap } }) := by
  cases o <;> rfl

/-- The pipeline does not know the three keys that its settings read leaves out: for every
platform and world, the reply, the Result Cache, the notifications, the captures, the uploads
and the pushes of a run are the same whatever the Settings Store holds under saveHistory,
analysisTimeout and maxHistoryItems. -/
theorem run_ignores_unread_keys (env : Env) (w : World) (history : Option Bool)
    (timeout cap : Option Int) :
    (onCaptureScreen.run env
        { w with sync := { w.sync with saveHistory := history, analysisTimeout := timeout,
                                       maxHistoryItems := cap } }).1
      = (onCaptureScreen.run env w).1 ∧
    (onCaptureScreen.run env
        { w with sync := { w.sync with saveHistory := history, analysisTimeout := timeout,
                                       maxHistoryItems := cap } }).2.cache
      = (onCaptureScreen.run env w).2.cache ∧
    (onCaptureScreen.run env
        { w with sync := { w.sync with saveHistory := history, analysisTimeout := timeout,
                                       maxHistoryItems := cap } }).2.notifications
      = (onCaptureScreen.run env w).2.notifications ∧
    (onCaptureScreen.run env
        { w with sync := { w.sync with saveHistory := history, analysisTimeout := timeout,
                                       maxHistoryItems := cap } }).2.captures
      = (onCaptureScreen.run env w).2.captures ∧
    (onCaptureScreen.run env
        { w with sync := { w.sync with saveHistory := history, analysisTimeout := timeout,
                                       maxHistoryItems := cap } }).2.uploads
      = (onCaptureScreen.run env w).2.uploads ∧
    (onCaptureScreen.run env
        { w with sync := { w.sync with saveHistory := history, analysisTimeout := timeout,
                                       maxHistoryItems := cap } }).2.pushes
      = (onCaptureScreen.run env w).2.pushes := by
  have h := Prog.run_frame env
    (fun w : World => { w with sync := { w.sync with saveHistory := history,
                                                     analysisTimeout := timeout,
                                                     maxHistoryItems := cap } })
    (World.perform_unread_keys env history timeout cap) onCaptureScreen w
  simp only at h
  rw [h]
  exact ⟨rfl, rfl, rfl, rfl, rfl, rfl⟩

/-- C16 (the code at the failing input): from a store that holds all six keys, the read of
the options page (`loadSettings`) returns all six, while the settings read that opens
`captureAndAnalyze` asks for the three keys of `DEFAULT_SETTINGS` and its answer has no
saveHistory, no analysis timeout and no maxHistoryItems; the run is the same as from a store
without these three keys. -/
theorem background_read_has_three_keys :
    (savedStore.saveHistory = some false ∧ savedStore.analysisTimeout = some 60 ∧
      savedStore.maxHistoryItems = some 500) ∧
    ((Options.loadSettings savedStore {}).saveHistoryToggle = false ∧
      (Options.loadSettings savedStore {}).analysisTimeoutInput = some 60 ∧
      (Options.loadSettings savedStore {}).maxHistoryItemsInput = some 500) ∧
    (∃ k, captureAndAnalyze = Prog.op (.storageSyncGet DEFAULT_SETTINGS) k) ∧
    (Settings.asObject
        (World.perform scenarioEnv { sync := savedStore } (.storageSyncGet DEFAULT_SETTINGS)).1
      = savedStore.read DEFAULT_SETTINGS.asObject ∧
      (savedStore.read DEFAULT_SETTINGS.asObject).serverUrl
        = some "https://screenmind.example" ∧
      (savedStore.read DEFAULT_SETTINGS.asObject).saveHistory = none ∧
      (savedStore.read DEFAULT_SETTINGS.asObject).analysisTimeout = none ∧
      (savedStore.read DEFAULT_SETTINGS.asObject).maxHistoryItems = none) ∧
    ((captureAndAnalyze.run scenarioEnv { sync := savedStore }).2.cache.lastAnalysisTime
        = (captureAndAnalyze.run scenarioEnv
            { sync := { savedStore with saveHistory := none, analysisTimeout := none,
                                        maxHistoryItems := none } }).2.cache.lastAnalysisTime ∧
      (captureAndAnalyze.run scenarioEnv { sync := savedStore }).2.notifications
        = (captureAndAnalyze.run scenarioEnv
            { sync := { savedStore with saveHistory := none, analysisTimeout := none,
                                        maxHistoryItems := none } }).2.notifications ∧
      (captureAndAnalyze.run scenarioEnv { sync := savedStore }).2.uploads
        = (captureAndAnalyze.run scenarioEnv
            { sync := { savedStore with saveHistory := none, analysisTimeout := none,
                                        maxHistoryItems := none } }).2.uploads) :=
  ⟨⟨rfl, rfl, rfl⟩, ⟨rfl, rfl, rfl⟩, ⟨_, rfl⟩, ⟨rfl, rfl, rfl, rfl, rfl⟩, ⟨rfl, rfl, rfl⟩⟩

/-- Every settings read returns a value for each key of the defaults object it is given,
equal to the stored value when the key is present in the store and to the default otherwise.
The read of the options page returns all six fields; the read of the background script
returns serverUrl, autoAnalyze and showNotifications and no other field. -/
theorem settings_reads_backfill_their_keys (s : SyncStore) :
    s.read defaultSettings.asObject =
      { serverUrl := some (s.serverUrl.getD "http://localhost:8000")
        autoAnalyze := some (s.autoAnalyze.getD true)
        showNotifications := some (s.showNotifications.getD true)
        saveHistory := some (s.saveHistory.getD true)
        analysisTimeout := some (s.analysisTimeout.getD 30)
        maxHistoryItems := some (s.maxHistoryItems.getD 100) } ∧
    (s.getAll defaultSettings).asObject = s.read defaultSettings.asObject ∧
    s.read DEFAULT_SETTINGS.asObject =
      { serverUrl := some (s.serverUrl.getD "http://localhost:8000")
        autoAnalyze := some (s.autoAnalyze.getD true)
        showNotifications := some (s.showNotifications.getD true)
        saveHistory := none
        analysisTimeout := none
        maxHistoryItems := none } ∧
    (s.get DEFAULT_SETTINGS).asObject = s.read DEFAULT_SETTINGS.asObject :=
  ⟨rfl, rfl, rfl, rfl⟩

/-- C17: after `resetSettings`, whatever the store held, the store holds exactly the
compiled-in defaults, a settings read returns them, the form shows them, and a second reset
changes neither the store nor the page. -/
theorem reset_restores_defaults (page : Options.Page) (store : SyncStore) :
    (Options.resetSettings page store).2 =
      { serverUrl := some "http://localhost:8000", autoAnalyze := some true,
        showNotifications := some true, saveHistory := some true,
        analysisTimeout := some 30, maxHistoryItems := some 100 } ∧
    (Options.resetSettings page store).2.getAll defaultSettings =
      { serverUrl := "http://localhost:8000", autoAnalyze := true, showNotifications := true,
        saveHistory := true, analysisTimeout := 30, maxHistoryItems := 100 } ∧
    (Options.resetSettings page store).1 =
      { serverUrlInput := "http://localhost:8000", autoAnalyzeToggle := true,
        notificationToggle := true, saveHistoryToggle := true,
        analysisTimeoutInput := some 30, maxHistoryItemsInput := some 100,
        successMessage := some "设置已重置为默认值！", errorMessage := none } ∧
    Options.resetSettings (Options.resetSettings page store).1
        (Options.resetSettings page store).2 = Options.resetSettings page store :=
  ⟨rfl, rfl, rfl, rfl⟩

/-! ## C18: what the popup renders -/

/-- The popup never reads lastErrorTime: the rendering is the same whatever the key holds. -/
theorem loadLastResult_ignores_error_time (cache : Cache) (time : Option Nat)
    (page : Popup.Page) :
    Popup.loadLastResult { cache with lastErrorTime := time } page
      = Popup.loadLastResult cache page := rfl

/-- The popup renders nothing and keeps its page when no analysis time is stored. -/
theorem loadLastResult_without_analysis_time (cache : Cache) (page : Popup.Page)
    (h : cache.lastAnalysisTime = none) : Popup.loadLastResult cache page = page := by
  simp [Popup.loadLastResult, h]

/-- C18 (the code at the failing inputs): with an ErrorRecord and no successful result in the
cache the popup renders nothing; with an ErrorRecord newer than the stored analysis it
renders the analysis and not the error. -/
theorem popup_does_not_render_newer_error :
    (afterFailure.cache.lastError = some "model unavailable" ∧
      afterFailure.cache.lastAnalysisTime = none ∧
      (Popup.loadLastResult afterFailure.cache {}).shownError = none ∧
      (Popup.loadLastResult afterFailure.cache {}).showsResult = false) ∧
    (errorAfterAnalysis.lastAnalysisTime = some 900 ∧
      errorAfterAnalysis.lastErrorTime = some 1000 ∧
      (Popup.loadLastResult errorAfterAnalysis {}).shownError = none ∧
      (Popup.loadLastResult errorAfterAnalysis {}).showsResult = true) := by
  decide

/-! ## C19, C20: the overlay of the content script -/

/-- C19 (the code at the failing inputs): timers started for an earlier container remove a
later one. A container rendered at 5000 ms, never clicked and not replaced, is gone at
8300 ms, removed by the auto-dismiss timer of the container rendered at 0 ms; and a container
rendered at 200 ms is gone at 400 ms, removed by the timer of a click on the earlier one. -/
theorem earlier_timer_removes_later_overlay :
    (twoPushes.displayed = [1] ∧ twoPushes.clock = 5000 ∧
      (twoPushes.step (.elapse 3000)).timers.get? 0
        = some { due := 8000, kind := .autoClose, owner := 0 } ∧
      firstTimerFires.displayed = [] ∧ firstTimerFires.clock = 8300 ∧
      firstTimerFires.clock < twoPushes.clock + 8000) ∧
    ((Content.Page.steps {}
        [.message scenarioPush, .elapse 100, .click 0, .elapse 100,
         .message scenarioPush]).displayed = [1] ∧
      closeThenPush.displayed = [] ∧ closeThenPush.clock = 400) := by
  decide

/-- A detach of the element that every attached container is leaves nothing attached. -/
theorem Content.detach_tidy (page : Content.Page) (h : page.Tidy) (current : Nat)
    (hc : page.resultContainer = some current) :
    Content.detach current page.attached = [] := by
  simp only [Content.detach, List.filter_eq_nil_iff]
  intro o ho
  have := h.2 o ho
  rw [hc] at this
  simp only [Option.some.injEq] at this
  simp [this]

/-- With the variable `resultContainer` empty there is no attached container. -/
theorem Content.attached_of_no_container (page : Content.Page) (h : page.Tidy)
    (hc : page.resultContainer = none) : page.attached = [] := by
  cases hatt : page.attached with
  | nil => rfl
  | cons o rest =>
    have := h.2 o (by simp [hatt])
    rw [hc] at this
    cases this

/-- What a push leaves attached, from a tidy page: the new container when the result can be
rendered, nothing otherwise. -/
theorem Content.showAnalysisResult_attached (page : Content.Page) (h : page.Tidy)
    (result : Json) :
    (Content.showAnalysisResult result page).attached =
      (match Content.markup result with
       | .ok rendered => [{ id := page.created, result := rendered }]
       | .error _ => []) ∧
    (Content.showAnalysisResult result page).resultContainer = some page.created := by
  cases hc : page.resultContainer with
  | none =>
    have ha := Content.attached_of_no_container page h hc
    cases hm : Content.markup result <;> simp [Content.showAnalysisResult, hc, hm, ha]
  | some current =>
    have ha := Content.detach_tidy page h current hc
    cases hm : Content.markup result <;> simp [Content.showAnalysisResult, hc, hm, ha]

/-- The close listener keeps a page tidy. -/
theorem Content.onCloseClick_tidy (owner : Nat) (page : Content.Page) (h : page.Tidy) :
    (Content.onCloseClick owner page).Tidy := by
  cases hc : page.resultContainer with
  | none => simpa [Content.onCloseClick, hc] using h
  | some current =>
    refine ⟨?_, ?_⟩
    · simpa [Content.onCloseClick, hc] using h.1
    · intro o ho
      simp only [Content.onCloseClick, hc, List.mem_map] at ho ⊢
      obtain ⟨o', ho', rfl⟩ := ho
      have := h.2 o' ho'
      rw [hc] at this
      split <;> simpa using this

/-- Every event keeps a page tidy. -/
theorem Content.step_tidy (page : Content.Page) (h : page.Tidy) (e : Content.Event) :
    (page.step e).Tidy := by
  cases e with
  | elapse ms => exact h
  | message request =>
    by_cases ht : request.type = "ANALYSIS_COMPLETE"
    · have hs := Content.showAnalysisResult_attached page h request.data
      simp only [Content.Page.step, Content.onMessage, ht, if_true]
      refine ⟨?_, ?_⟩
      · rw [hs.1]
        split <;> simp
      · intro o ho
        rw [hs.1] at ho
        rw [hs.2]
        split at ho
        · simp only [List.mem_singleton] at ho
          rw [ho]
        · cases ho
    · simpa [Content.Page.step, Content.onMessage, ht] using h
  | click id =>
    simp only [Content.Page.step]
    split
    · exact Content.onCloseClick_tidy id page h
    · exact h
  | fire i =>
    simp only [Content.Page.step]
    split
    · rename_i t _
      split
      · have h' : ({ page with timers := page.timers.eraseIdx i } : Content.Page).Tidy := h
        cases hk : t.kind with
        | remove =>
          cases hc : page.resultContainer with
          | none =>
            have ha := Content.attached_of_no_container page h hc
            simp [Content.Timer.run, hk, hc, ha, Content.Page.Tidy]
          | some current =>
            have ha := Content.detach_tidy page h current hc
            simp [Content.Timer.run, hk, hc, ha, Content.Page.Tidy]
        | autoClose =>
          cases hc : page.resultContainer with
          | none =>
            have ha := Content.attached_of_no_container page h hc
            simp [Content.Timer.run, hk, hc, ha, Content.Page.Tidy]
          | some current =>
            have := Content.onCloseClick_tidy t.owner _ h'
            simpa [Content.Timer.run, hk, hc] using this
      · exact h
    · exact h

/-- Every sequence of events keeps a page tidy. -/
theorem Content.steps_tidy (events : List Content.Event) (page : Content.Page)
    (h : page.Tidy) : (page.steps events).Tidy := by
  induction events generalizing page with
  | nil => exact h
  | cons e rest ih => exact ih (page.step e) (Content.step_tidy page h e)

/-- C20: in every state that the content script reaches from a fresh page through pushes,
clicks on the close button, timers and the passing of time, in any order, at most one result
container is attached; and right after an `ANALYSIS_COMPLETE` push what is attached is the
container created for that push, rendering its result (nothing, when the result has no
readable `data` and the rendering throws). -/
theorem at_most_one_overlay (events : List Content.Event) :
    (Content.Page.steps {} events).attached.length ≤ 1 ∧
    ∀ result : Json,
      ((Content.Page.steps {} events).step
          (.message { type := "ANALYSIS_COMPLETE", data := result })).attached =
        (match Content.markup result with
         | .ok rendered => [{ id := (Content.Page.steps {} events).created, result := rendered }]
         | .error _ => []) := by
  have h : (Content.Page.steps {} events).Tidy :=
    Content.steps_tidy events {} ⟨by simp, fun o ho => by cases ho⟩
  refine ⟨h.1, fun result => ?_⟩
  have hs := Content.showAnalysisResult_attached _ h result
  simpa [Content.Page.step, Content.onMessage] using hs.1

/-! ## C21, C22: the history list of the mini program -/

/-- C21 (the code at the failing inputs): a filter tapped while a load is in flight changes
`currentFilter` but issues no request, and the answer of the earlier request fills the list;
and a filter whose request fails leaves the earlier items in the list. In both cases no load
is in flight at the end and every entry was fetched under `all` while the filter is `math`. -/
theorem filter_change_leaves_stale_items :
    (filterTappedWhileLoading.pending = [] ∧
      filterTappedWhileLoading.data.loading = false ∧
      filterTappedWhileLoading.data.currentFilter = "math" ∧
      filterTappedWhileLoading.provenance = ["all"] ∧
      (filterTappedWhileLoading.requests.map fun r => r.filter) = ["all"]) ∧
    (filterRequestFails.pending = [] ∧
      filterRequestFails.data.loading = false ∧
      filterRequestFails.data.currentFilter = "math" ∧
      filterRequestFails.provenance = ["all"] ∧
      (filterRequestFails.requests.map fun r => r.filter) = ["all", "math"]) := by
  decide

/-- The request of a call that `loadHistoryList` has just suspended is the last pending one. -/
theorem History.pending_after_load (host : History.Host) (reset : Bool) (p : History.Page)
    (h : p.data.loading = false) :
    (History.loadHistoryList host reset p).pending.get? p.pending.length
      = some (History.callOf host reset p) ∧
    (History.loadHistoryList host reset p).pending.eraseIdx p.pending.length = p.pending := by
  simp [History.loadHistoryList, h, List.eraseIdx_append_of_length_le]

/-- Only the end of a request changes `historyList`: no tap, scroll or refresh does, so the
list a resumed call appends to is the list that was there when the call was made. -/
theorem History.step_keeps_list (host : History.Host) (p : History.Page) (e : History.Event)
    (he : ∀ i outcome, e ≠ .complete i outcome) :
    (p.step host e).data.historyList = p.data.historyList := by
  cases e with
  | complete i outcome => exact absurd rfl (he i outcome)
  | load => simp only [History.Page.step, History.loadHistoryList]; split <;> rfl
  | loadMore =>
    simp only [History.Page.step, History.handleLoadMore, History.loadHistoryList]
    split <;> rfl
  | pullDownRefresh => simp only [History.Page.step, History.loadHistoryList]; split <;> rfl
  | reachBottom =>
    simp only [History.Page.step, History.onReachBottom, History.handleLoadMore,
      History.loadHistoryList]
    split
    · split <;> rfl
    · rfl
  | filterChange filter =>
    simp only [History.Page.step, History.handleFilterChange, History.loadHistoryList]
    split
    · rfl
    · split <;> rfl

/-- C22: `loadHistoryList(reset)` called while `loading` is true issues no request and
changes nothing. Called while `loading` is false it issues one request for page 1 (reset) or
for the current page, under the current filter. When that request ends, `loading` is false
again; an answer with items `L` that map to `entries` sets `historyList` to the old list
followed by `entries` and `page` to the old page + 1 when `reset` is false, and to exactly
`entries` with `page` 2 when `reset` is true; a request that fails, or whose answer cannot be
read, leaves `historyList`, `page` and `hasMore` as they were. -/
theorem pagination_step (host : History.Host) (p : History.Page) (reset : Bool) :
    (p.data.loading = true → History.loadHistoryList host reset p = p) ∧
    (p.data.loading = false →
      (History.loadHistoryList host reset p).requests = p.requests ++
        [{ url := "/api/v1/miniprogram/history", method := "GET", deviceId := host.deviceId,
           page := if reset then 1 else p.data.page, pageSize := p.data.pageSize,
           filter := p.data.currentFilter }] ∧
      ∀ outcome : App.WxOutcome,
        (((History.loadHistoryList host reset p).step host
            (.complete p.pending.length outcome)).data.loading = false) ∧
        (∀ res L hasMore entries, App.request outcome = .ok res →
          History.readList res = .ok (L, hasMore) →
          L.mapM (History.decorate host p.data.currentFilter) = .ok entries →
          ((History.loadHistoryList host reset p).step host
              (.complete p.pending.length outcome)).data.historyList
            = (if reset then entries else p.data.historyList ++ entries) ∧
          ((History.loadHistoryList host reset p).step host
              (.complete p.pending.length outcome)).data.page
            = (if reset then 2 else p.data.page + 1) ∧
          ((History.loadHistoryList host reset p).step host
              (.complete p.pending.length outcome)).data.hasMore = hasMore) ∧
        (∀ e, (History.callOf host reset p).read host (App.request outcome) = .error e →
          ((History.loadHistoryList host reset p).step host
              (.complete p.pending.length outcome)).data.historyList = p.data.historyList ∧
          ((History.loadHistoryList host reset p).step host
              (.complete p.pending.length outcome)).data.page = p.data.page ∧
          ((History.loadHistoryList host reset p).step host
              (.complete p.pending.length outcome)).data.hasMore = p.data.hasMore)) := by
  refine ⟨fun h => by simp [History.loadHistoryList, h], fun h => ⟨?_, fun outcome => ?_⟩⟩
  · simp [History.loadHistoryList, h, History.callOf]
  · have hp := History.pending_after_load host reset p h
    have hstep : (History.loadHistoryList host reset p).step host
        (.complete p.pending.length outcome) =
        (History.callOf host reset p).resume host (App.request outcome)
          { (History.loadHistoryList host reset p) with pending := p.pending } := by
      simp only [History.Page.step, hp.1, hp.2]
    rw [hstep]
    refine ⟨?_, ?_, ?_⟩
    · simp [History.Call.resume]
    · intro res L hasMore entries hres hlist hmap
      have hread : (History.callOf host reset p).read host (App.request outcome)
          = .ok (entries, hasMore) := by
        have hfilter : (History.callOf host reset p).request.filter = p.data.currentFilter :=
          rfl
        simp only [History.Call.read, hres, hlist, hfilter, hmap, bind, Except.bind, pure,
          Except.pure]
      simp only [History.Call.resume, hread]
      cases reset <;> simp [History.loadHistoryList, h, History.callOf]
    · intro e he
      simp only [History.Call.resume, he]
      simp [History.loadHistoryList, h]

/-- C22, witness: on a page that has loaded two items, a call made while loading is true
changes nothing, `handleLoadMore` appends the item of the second page, and a refresh that
fails changes nothing but `loading`. -/
theorem pagination_step_witness :
    History.loadHistoryList exampleHost false (History.loadHistoryList exampleHost false {})
      = History.loadHistoryList exampleHost false {} ∧
    ((firstPageLoaded.step exampleHost .loadMore).step exampleHost
        (.complete 0 (.success 200 (historyAnswer [historyItem 3])))).data.page = 3 ∧
    ((firstPageLoaded.step exampleHost .loadMore).step exampleHost
        (.complete 0 (.success 200 (historyAnswer [historyItem 3])))).provenance
      = ["all", "all", "all"] ∧
    ((firstPageLoaded.step exampleHost .pullDownRefresh).step exampleHost
        (.complete 0 (.fail "request:fail timeout"))).data.page = 2 :=
  ⟨(pagination_step exampleHost (History.loadHistoryList exampleHost false {}) false).1 rfl,
    (((pagination_step exampleHost firstPageLoaded false).2 rfl).2
      (.success 200 (historyAnswer [historyItem 3]))).2.1 _ _ _ _ rfl rfl rfl |>.2.1,
    by decide,
    ((((pagination_step exampleHost firstPageLoaded true).2 rfl).2
      (.fail "request:fail timeout")).2.2 "request:fail timeout" rfl).2.1⟩

/-! ## C23: relative time -/

/-- C23: for all instants `now` and `date` with `diff = now - date` in milliseconds, both
`formatTime` functions give `刚刚` when `diff < 60000` (dates in the future included), `N分钟前`
with `N = floor(diff / 60000)` and `1 ≤ N ≤ 59` when `60000 ≤ diff < 3600000`, `N小时前` with
`N = floor(diff / 3600000)` and `1 ≤ N ≤ 23` when `3600000 ≤ diff < 86400000`, and a calendar
date otherwise (the locale date in the popup, month and day on the index page); below one
day the two functions give the same text. -/
theorem formatTime_cases (toLocaleDateString : Int → String) (getMonth getDate : Int → Nat)
    (now date : Int) :
    (now - date < 60000 →
      Popup.formatTime toLocaleDateString now date = "刚刚" ∧
      Index.formatTime getMonth getDate now date = "刚刚") ∧
    (60000 ≤ now - date → now - date < 3600000 →
      Popup.formatTime toLocaleDateString now date
        = toString ((now - date) / 60000) ++ "分钟前" ∧
      Index.formatTime getMonth getDate now date
        = toString ((now - date) / 60000) ++ "分钟前" ∧
      1 ≤ (now - date) / 60000 ∧ (now - date) / 60000 ≤ 59) ∧
    (3600000 ≤ now - date → now - date < 86400000 →
      Popup.formatTime toLocaleDateString now date
        = toString ((now - date) / 3600000) ++ "小时前" ∧
      Index.formatTime getMonth getDate now date
        = toString ((now - date) / 3600000) ++ "小时前" ∧
      1 ≤ (now - date) / 3600000 ∧ (now - date) / 3600000 ≤ 23) ∧
    (86400000 ≤ now - date →
      Popup.formatTime toLocaleDateString now date = toLocaleDateString date ∧
      Index.formatTime getMonth getDate now date
        = toString (getMonth date + 1) ++ "月" ++ toString (getDate date) ++ "日") ∧
    (now - date < 86400000 →
      Popup.formatTime toLocaleDateString now date
        = Index.formatTime getMonth getDate now date) := by
  refine ⟨fun h => ?_, fun h1 h2 => ?_, fun h1 h2 => ?_, fun h => ?_, fun h => ?_⟩
  · simp [Popup.formatTime, Index.formatTime, h]
  · have hn : ¬ (now - date < 60000) := by omega
    refine ⟨by simp [Popup.formatTime, hn, h2], by simp [Index.formatTime, hn, h2], ?_, ?_⟩ <;>
    omega
  · have hn1 : ¬ (now - date < 60000) := by omega
    have hn2 : ¬ (now - date < 3600000) := by omega
    refine ⟨by simp [Popup.formatTime, hn1, hn2, h2],
      by simp [Index.formatTime, hn1, hn2, h2], ?_, ?_⟩ <;>
    omega
  · have hn1 : ¬ (now - date < 60000) := by omega
    have hn2 : ¬ (now - date < 3600000) := by omega
    have hn3 : ¬ (now - date < 86400000) := by omega
    exact ⟨by simp [Popup.formatTime, hn1, hn2, hn3],
      by simp [Index.formatTime, hn1, hn2, hn3]⟩
  · simp only [Popup.formatTime, Index.formatTime]
    split
    · rfl
    · split
      · rfl
      · simp [h]

/-- C23, witness: one instant in each of the four ranges, and a date in the future. -/
theorem formatTime_cases_witness :
    Popup.formatTime (fun _ => "2023/11/14") 1700000030000 1700000000000 = "刚刚" ∧
    Index.formatTime (fun _ => 10) (fun _ => 14) 1700000000000 1700000030000 = "刚刚" ∧
    Popup.formatTime (fun _ => "2023/11/14") 1700003599999 1700000000000 = "59分钟前" ∧
    Index.formatTime (fun _ => 10) (fun _ => 14) 1700086399999 1700000000000 = "23小时前" ∧
    Popup.formatTime (fun _ => "2023/11/14") 1700086400000 1700000000000 = "2023/11/14" ∧
    Index.formatTime (fun _ => 10) (fun _ => 14) 1700086400000 1700000000000 = "11月14日" :=
  ⟨((formatTime_cases (fun _ => "2023/11/14") (fun _ => 10) (fun _ => 14) 1700000030000
      1700000000000).1 (by decide)).1,
    ((formatTime_cases (fun _ => "2023/11/14") (fun _ => 10) (fun _ => 14) 1700000000000
      1700000030000).1 (by decide)).2,
    ((formatTime_cases (fun _ => "2023/11/14") (fun _ => 10) (fun _ => 14) 1700003599999
      1700000000000).2.1 (by decide) (by decide)).1,
    ((formatTime_cases (fun _ => "2023/11/14") (fun _ => 10) (fun _ => 14) 1700086399999
      1700000000000).2.2.1 (by decide) (by decide)).2.1,
    ((formatTime_cases (fun _ => "2023/11/14") (fun _ => 10) (fun _ => 14) 1700086400000
      1700000000000).2.2.2.1 (by decide)).1,
    ((formatTime_cases (fun _ => "2023/11/14") (fun _ => 10) (fun _ => 14) 1700086400000
      1700000000000).2.2.2.1 (by decide)).2⟩

/-! ## C1: the run that a trigger starts -/

/-- A call that is suspended, once resumed, ends as the whole call does. -/
theorem Prog.advance_run {α : Type} (env : Env) (p : Prog α) (w : World) :
    (match p.advance env w with
     | (.suspended rest, w1) => rest.run env w1
     | (.finished result, w1) => (result, w1)) = p.run env w := by
  induction p generalizing w with
  | ret a => simp [Prog.advance, Prog.run]
  | throw e => simp [Prog.advance, Prog.run]
  | op o k ih =>
    cases hsusp : o.suspends
    · simpa [Prog.advance, hsusp, Prog.run] using ih _ _
    · simp [Prog.advance, hsusp, Prog.run]

/-- Resuming the call at position `before.length`. -/
theorem Orch.resume_at (env : Env) (before after : List (Prog (Option Reply)))
    (p : Prog (Option Reply)) (w : World) (replies : List Reply) :
    Orch.resume env { world := w, inflight := before ++ p :: after, replies := replies }
        before.length =
      Orch.place { world := w, inflight := before ++ p :: after, replies := replies }
        before after (p.advance env w) := by
  have hget : (before ++ p :: after).get? before.length = some p := by
    rw [List.get?_eq_getElem?, List.getElem?_append_right (le_refl _)]
    simp
  have htake : (before ++ p :: after).take before.length = before := by simp
  have hdrop : (before ++ p :: after).drop (before.length + 1) = after := by simp
  simp only [Orch.resume, hget, htake, hdrop]

/-- A suspended call that is resumed each time it suspends, with the other calls left
waiting, finishes: the world is the one `Prog.run` computes, the call has left the list, the
other calls are where they were, and its reply, if it owes one, has been sent. -/
theorem Orch.resume_until_finished (env : Env) (before after : List (Prog (Option Reply)))
    (replies : List Reply) (p : Prog (Option Reply)) (w : World) :
    ∃ n, Orch.resumeAll env
        { world := w, inflight := before ++ p :: after, replies := replies }
        (List.replicate (n + 1) before.length) =
      { world := (p.run env w).2, inflight := before ++ after,
        replies := replies ++
          (match (p.run env w).1 with
           | .ok (some r) => [r]
           | _ => []) } := by
  induction p generalizing w with
  | ret a =>
    refine ⟨0, ?_⟩
    cases a <;>
      simp [Orch.resumeAll, Orch.resume_at, Prog.advance, Orch.place, Prog.run]
  | throw e =>
    exact ⟨0, by simp [Orch.resumeAll, Orch.resume_at, Prog.advance, Orch.place, Prog.run]⟩
  | op o k ih =>
    obtain ⟨n, hn⟩ := ih (w.perform env o).1 (w.perform env o).2
    cases hsusp : o.suspends
    · refine ⟨n, ?_⟩
      have hadv : (Prog.op o k).advance env w
          = (k (w.perform env o).1).advance env (w.perform env o).2 := by
        simp [Prog.advance, hsusp]
      have h1 := Orch.resume_at env before after (Prog.op o k) w replies
      have h2 := Orch.resume_at env before after (k (w.perform env o).1) (w.perform env o).2
        replies
      have hstep : Orch.resume env
          { world := w, inflight := before ++ Prog.op o k :: after, replies := replies }
          before.length =
          Orch.resume env
          { world := (w.perform env o).2, inflight := before ++ k (w.perform env o).1 :: after,
            replies := replies } before.length := by
        rw [h1, h2, hadv]
        rfl
      simp only [Orch.resumeAll, List.replicate_succ, List.foldl_cons] at hn ⊢
      rw [hstep]
      simpa [Prog.run] using hn
    · refine ⟨n + 1, ?_⟩
      have h1 := Orch.resume_at env before after (Prog.op o k) w replies
      simp only [Orch.resumeAll, List.replicate_succ, List.foldl_cons] at hn ⊢
      rw [h1]
      simp only [Prog.advance, hsusp, if_true, Orch.place]
      simpa [Prog.run] using hn

/-- The listener of `CAPTURE_SCREEN`, run to its end, sends the success reply and leaves the
world that `captureAndAnalyze` leaves. -/
theorem Trigger.captureScreen_run (env : Env) (w : World) :
    Trigger.captureScreen.handler.run env w =
      (.ok (some { success := true, error := none }), (captureAndAnalyze.run env w).2) := by
  have h := captureAndAnalyze_never_rejects env w
  simp only [Trigger.handler, onCaptureScreen, Prog.run_bind, Prog.run_tryCatch, Prog.bind_eq]
  revert h
  rcases captureAndAnalyze.run env w with ⟨_ | _, w1⟩ <;> simp [Prog.run]

/-- The listener of the `capture-screen` command, run to its end, owes no reply and leaves
the world that `captureAndAnalyze` leaves. -/
theorem Trigger.command_run (env : Env) (w : World) :
    (Trigger.command "capture-screen").handler.run env w =
      (.ok none, (captureAndAnalyze.run env w).2) := by
  have h := captureAndAnalyze_never_rejects env w
  simp only [Trigger.handler, onCommand, if_true, Prog.run_bind]
  revert h
  rcases captureAndAnalyze.run env w with ⟨_ | _, w1⟩ <;> simp [Prog.run]

/-- A capture trigger suspends its listener at the settings read, behind the calls already
in flight, and changes nothing else. -/
theorem Orch.receive_capture (env : Env) (o : Orch) (t : Trigger)
    (ht : t = .captureScreen ∨ t = .command "capture-screen") :
    ∃ rest, o.receive env t =
        { world := o.world, inflight := o.inflight ++ [rest], replies := o.replies } ∧
      rest.run env o.world = t.handler.run env o.world := by
  have hform : ∃ k, t.handler = Prog.op (.storageSyncGet DEFAULT_SETTINGS) k := by
    rcases ht with rfl | rfl
    · exact ⟨_, rfl⟩
    · exact ⟨_, rfl⟩
  obtain ⟨k, hk⟩ := hform
  have hadv : t.handler.advance env o.world
      = (.suspended (k (o.world.sync.get DEFAULT_SETTINGS)), o.world) := by
    rw [hk]
    simp [Prog.advance, Op.suspends, World.perform]
  have hrun := Prog.advance_run env t.handler o.world
  rw [hadv] at hrun
  exact ⟨_, by simp [Orch.receive, hadv, Orch.place], hrun⟩

/-- With an active tab a run contacts the Capture Service once, for the window of the tab. -/
theorem run_contacts_capture_service (env : Env) (w : World) (tab : Tab) (others : List Tab)
    (htab : env.tabs w.queries = tab :: others) :
    (captureAndAnalyze.run env w).2.captures = w.captures ++ [tab.windowId] := by
  cases hs : (w.sync.get DEFAULT_SETTINGS).showNotifications <;>
  cases ha : (w.sync.get DEFAULT_SETTINGS).autoAnalyze <;>
  simp [captureAndAnalyze, analyzeScreenshot, Prog.run, Prog.bind, Prog.tryCatch,
    World.perform, Prog.ofExcept, Prog.call, storageSyncGet, storageLocalSet,
    notificationsCreate, tabsQuery, captureVisibleTab, fetchPost, HttpResponse.json, dateNow,
    tabsSendMessage, errorMessageOf, htab, hs, ha] <;>
  repeat' (split <;> (try simp [Prog.run, Prog.bind, Prog.tryCatch, World.perform,
    Prog.ofExcept, *]))

/-- With a captured image and autoAnalyze true a run contacts the Analysis Client once. -/
theorem run_contacts_analysis_client (env : Env) (w : World) (tab : Tab) (others : List Tab)
    (d : String) (htab : env.tabs w.queries = tab :: others)
    (hcap : env.capture tab.windowId = .ok d)
    (hauto : (w.sync.get DEFAULT_SETTINGS).autoAnalyze = true) :
    (captureAndAnalyze.run env w).2.uploads = w.uploads ++
      [((w.sync.get DEFAULT_SETTINGS).serverUrl ++ "/api/v1/analyze",
        { name := "image", blob := dataUrlToBlob d, filename := "screenshot.png" })] := by
  cases hs : (w.sync.get DEFAULT_SETTINGS).showNotifications <;>
  simp [captureAndAnalyze, analyzeScreenshot, Prog.run, Prog.bind, Prog.tryCatch,
    World.perform, Prog.ofExcept, Prog.call, storageSyncGet, storageLocalSet,
    notificationsCreate, tabsQuery, captureVisibleTab, fetchPost, HttpResponse.json, dateNow,
    tabsSendMessage, errorMessageOf, htab, hcap, hauto, hs] <;>
  repeat' (split <;> (try simp [Prog.run, Prog.bind, Prog.tryCatch, World.perform,
    Prog.ofExcept, *]))

/-- With a successful analysis a run writes the screenshot and the result to the cache. -/
theorem run_overwrites_cache (env : Env) (w : World) (tab : Tab) (others : List Tab)
    (d : String) (resp : HttpResponse) (r : Json)
    (htab : env.tabs w.queries = tab :: others)
    (hcap : env.capture tab.windowId = .ok d)
    (hauto : (w.sync.get DEFAULT_SETTINGS).autoAnalyze = true)
    (hfetch : env.fetch ((w.sync.get DEFAULT_SETTINGS).serverUrl ++ "/api/v1/analyze")
      { name := "image", blob := dataUrlToBlob d, filename := "screenshot.png" } = .ok resp)
    (hok : resp.ok = true) (hbody : resp.body = .ok r) :
    (captureAndAnalyze.run env w).2.cache.lastScreenshot = some d ∧
    (captureAndAnalyze.run env w).2.cache.lastAnalysis = some r := by
  cases hs : (w.sync.get DEFAULT_SETTINGS).showNotifications <;>
  cases ht : env.tabs (w.queries + 1) <;>
  simp [captureAndAnalyze, analyzeScreenshot, Prog.run, Prog.bind, Prog.tryCatch,
    World.perform, Prog.ofExcept, Prog.call, storageSyncGet, storageLocalSet,
    notificationsCreate, tabsQuery, captureVisibleTab, fetchPost, HttpResponse.json, dateNow,
    tabsSendMessage, Cache.set, hauto, htab, hcap, hfetch, hok, hbody, hs, ht]

/-- C1 (amended): a capture trigger is never rejected and no Busy reply exists. In every
orchestrator state, whatever is in flight, `CAPTURE_SCREEN` and the `capture-screen` command
each put one more run in flight, and receiving the trigger sends no reply and leaves the
world, the Result Cache included, as it was. Resumed to its end while the calls already in
flight are left waiting, that run leaves exactly the world that `captureAndAnalyze` leaves
when run alone from the world at the trigger, the earlier calls are still in flight, and a
`CAPTURE_SCREEN` is answered with the success reply. In particular, with an active tab the
run contacts the Capture Service; with a captured image and autoAnalyze true it contacts the
Analysis Client; and with a successful analysis it overwrites lastScreenshot and
lastAnalysis. -/
theorem trigger_starts_run_unconditionally (env : Env) (o : Orch) :
    ((o.receive env .captureScreen).inflight.length = o.inflight.length + 1 ∧
      (o.receive env .captureScreen).world = o.world ∧
      (o.receive env .captureScreen).replies = o.replies) ∧
    ((o.receive env (.command "capture-screen")).inflight.length = o.inflight.length + 1 ∧
      (o.receive env (.command "capture-screen")).world = o.world ∧
      (o.receive env (.command "capture-screen")).replies = o.replies) ∧
    (∃ n, (o.receive env .captureScreen).resumeAll env (List.replicate n o.inflight.length) =
      { world := (captureAndAnalyze.run env o.world).2, inflight := o.inflight,
        replies := o.replies ++ [{ success := true, error := none }] }) ∧
    (∃ n, (o.receive env (.command "capture-screen")).resumeAll env
        (List.replicate n o.inflight.length) =
      { world := (captureAndAnalyze.run env o.world).2, inflight := o.inflight,
        replies := o.replies }) ∧
    (∀ tab others, env.tabs o.world.queries = tab :: others →
      (captureAndAnalyze.run env o.world).2.captures = o.world.captures ++ [tab.windowId] ∧
      ∀ d, env.capture tab.windowId = .ok d →
        (o.world.sync.get DEFAULT_SETTINGS).autoAnalyze = true →
        (captureAndAnalyze.run env o.world).2.uploads = o.world.uploads ++
          [((o.world.sync.get DEFAULT_SETTINGS).serverUrl ++ "/api/v1/analyze",
            { name := "image", blob := dataUrlToBlob d, filename := "screenshot.png" })] ∧
        ∀ resp r,
          env.fetch ((o.world.sync.get DEFAULT_SETTINGS).serverUrl ++ "/api/v1/analyze")
            { name := "image", blob := dataUrlToBlob d, filename := "screenshot.png" }
            = .ok resp →
          resp.ok = true → resp.body = .ok r →
          (captureAndAnalyze.run env o.world).2.cache.lastScreenshot = some d ∧
          (captureAndAnalyze.run env o.world).2.cache.lastAnalysis = some r) := by
  obtain ⟨rest1, hrec1, hrun1⟩ := Orch.receive_capture env o .captureScreen (.inl rfl)
  obtain ⟨rest2, hrec2, hrun2⟩ :=
    Orch.receive_capture env o (.command "capture-screen") (.inr rfl)
  obtain ⟨n1, hn1⟩ := Orch.resume_until_finished env o.inflight [] o.replies rest1 o.world
  obtain ⟨n2, hn2⟩ := Orch.resume_until_finished env o.inflight [] o.replies rest2 o.world
  refine ⟨?_, ?_, ⟨n1 + 1, ?_⟩, ⟨n2 + 1, ?_⟩, fun tab others htab => ⟨?_, fun d hcap hauto =>
    ⟨?_, fun resp r hfetch hok hbody => ?_⟩⟩⟩
  · simp [hrec1]
  · simp [hrec2]
  · rw [hrec1, hn1, hrun1, Trigger.captureScreen_run]
    simp
  · rw [hrec2, hn2, hrun2, Trigger.command_run]
    simp
  · exact run_contacts_capture_service env o.world tab others htab
  · exact run_contacts_analysis_client env o.world tab others d htab hcap hauto
  · exact run_overwrites_cache env o.world tab others d resp r htab hcap hauto hfetch hok hbody

/-- C1 (amended), witness: the state with a first run waiting for its upload; the run of a
second trigger captures and uploads again and overwrites the cache. -/
theorem trigger_starts_run_unconditionally_witness :
    uploadingState.inflight.length = 1 ∧
    (captureAndAnalyze.run scenarioEnv uploadingState.world).2.captures = [3, 3] ∧
    (captureAndAnalyze.run scenarioEnv uploadingState.world).2.uploads.length = 2 ∧
    (captureAndAnalyze.run scenarioEnv uploadingState.world).2.cache.lastAnalysis
      = some scenarioResult :=
  have h := (trigger_starts_run_unconditionally scenarioEnv uploadingState).2.2.2.2
    { id := 7, windowId := 3 } [] rfl
  have hu := h.2 "data:image/png;base64,AAAA" rfl rfl
  ⟨rfl, h.1, by rw [hu.1]; rfl,
    (hu.2 { status := 200, body := .ok scenarioResult } scenarioResult rfl rfl rfl).2⟩

end ScreenMind
